import Mathlib

/-!
Shallow embedding of the `llm-strings` core (provider registry, normalizer,
validator) from the repository sources:

* `providers.ts` / `provider-core.ts` — provider detection, alias and param
  tables, validation specs, Bedrock family detection, cache tables;
* `normalize.ts` — the parameter rewriting pipeline;
* `validate.ts` — the connection-string validator (the revision taking a raw
  connection string plus a `strict` option, with gateway sub-provider
  resolution).

JavaScript strings are modelled by `String`, JavaScript plain objects used as
string-to-string maps (`Record<string, string>`) by insertion-ordered
association lists with unique keys, and `Number(value)` by an exact
decimal-fraction parser (`jsNumber`).
-/

namespace LlmStrings

/-- `startsWithChars p cs` holds when the character list `cs` starts with `p`. -/
def startsWithChars : List Char → List Char → Bool
  | [], _ => true
  | _ :: _, [] => false
  | p :: ps, c :: cs => p == c && startsWithChars ps cs

/-- `containsSeq hay needle`: does `hay` contain `needle` as a contiguous run? -/
def containsSeq : List Char → List Char → Bool
  | [], n => n.isEmpty
  | c :: cs, n => startsWithChars n (c :: cs) || containsSeq cs n

/-- Model of JavaScript `String.prototype.includes`. -/
def strIncludes (s pat : String) : Bool :=
  containsSeq s.data pat.data

/-- Split a character list on a single separator character, keeping empty
segments — the behaviour of JavaScript `String.prototype.split` with a
one-character separator (`"".split(sep)` gives `[""]`). -/
def splitOnChar (sep : Char) : List Char → List (List Char)
  | [] => [[]]
  | c :: cs =>
    if c == sep then [] :: splitOnChar sep cs
    else
      match splitOnChar sep cs with
      | [] => [[c]]
      | g :: gs => (c :: g) :: gs

/-- Numeric value of a list of decimal digit characters (most significant first). -/
def digitsVal (cs : List Char) : Nat :=
  cs.foldl (fun n c => 10 * n + (c.toNat - '0'.toNat)) 0

/-- Decimal rendering of a natural number (fuel-based so that it reduces). -/
def natDigits (fuel n : Nat) : List Char :=
  match fuel with
  | 0 => []
  | fuel + 1 =>
    if n < 10 then [Nat.digitChar n]
    else natDigits fuel (n / 10) ++ [Nat.digitChar (n % 10)]

/-- Decimal rendering of a natural number. -/
def natToString (n : Nat) : String :=
  (natDigits (n + 1) n).asString

/-- Decimal rendering of an integer. -/
def intToString : Int → String
  | .ofNat n => natToString n
  | .negSucc n => "-" ++ natToString (n + 1)

/-- JavaScript object assignment `obj[k] = v` on an insertion-ordered
association list: overwrite in place when the key exists, append otherwise. -/
def objInsert (m : List (String × String)) (k v : String) : List (String × String) :=
  if m.any (fun p => p.1 == k) then
    m.map (fun p => if p.1 == k then (k, v) else p)
  else m ++ [(k, v)]

/-- An exact fraction `num / den` with `den` a positive power of ten: the model
of a finite JavaScript number produced by `Number(value)`.  (The source uses
binary floating point; this embedding is exact on decimal literals, which is
faithful on every comparison against the integer bounds of the spec tables.) -/
structure JsNum where
  num : Int
  den : Nat
deriving DecidableEq, Repr

/-- `q < m` for a fraction `q` and an integer bound `m` (`den` is positive). -/
def JsNum.ltInt (q : JsNum) (m : Int) : Bool :=
  decide (q.num < m * q.den)

/-- `q > m` for a fraction `q` and an integer bound `m` (`den` is positive). -/
def JsNum.gtInt (q : JsNum) (m : Int) : Bool :=
  decide (m * q.den < q.num)

/-- Rendering of a parsed number for interpolation into messages.  (JavaScript
renders `1.5`; this model renders `15/10` — the deviation is confined to the
"got …" tail of range error messages.) -/
def JsNum.render (q : JsNum) : String :=
  if q.den == 1 then intToString q.num
  else intToString q.num ++ "/" ++ natToString q.den

/-- Mantissa of a decimal literal: digits with at most one decimal point and at
least one digit overall (`"1"`, `"1.5"`, `".5"`, `"5."`). -/
def parseMantissa (cs : List Char) : Option JsNum :=
  match splitOnChar '.' cs with
  | [intPart] =>
    if intPart ≠ [] ∧ intPart.all Char.isDigit then
      some ⟨digitsVal intPart, 1⟩
    else none
  | [intPart, fracPart] =>
    if (intPart ++ fracPart) ≠ [] ∧ (intPart ++ fracPart).all Char.isDigit then
      some ⟨(digitsVal intPart) * 10 ^ fracPart.length + digitsVal fracPart,
            10 ^ fracPart.length⟩
    else none
  | _ => none

/-- Exponent part of a decimal literal: optional sign and nonempty digits. -/
def parseExpPart (cs : List Char) : Option Int :=
  let signed : Int × List Char :=
    match cs with
    | '-' :: r => (-1, r)
    | '+' :: r => (1, r)
    | r => (1, r)
  if signed.2 ≠ [] ∧ signed.2.all Char.isDigit then
    some (signed.1 * (digitsVal signed.2 : Int))
  else none

/-- Scale a mantissa by a power of ten. -/
def applyExp (m : JsNum) : Int → JsNum
  | .ofNat n => ⟨m.num * 10 ^ n, m.den⟩
  | .negSucc n => ⟨m.num, m.den * 10 ^ (n + 1)⟩

/-- An unsigned decimal literal with optional exponent. -/
def parseUnsigned (cs : List Char) : Option JsNum :=
  match cs.findIdx? (fun c => c == 'e' || c == 'E') with
  | none => parseMantissa cs
  | some i =>
    match parseMantissa (cs.take i), parseExpPart (cs.drop (i + 1)) with
    | some m, some e => some (applyExp m e)
    | _, _ => none

/-- A signed decimal literal. -/
def parseSigned (cs : List Char) : Option JsNum :=
  match cs with
  | '-' :: rest => (parseUnsigned rest).map (fun q => ⟨-q.num, q.den⟩)
  | '+' :: rest => parseUnsigned rest
  | _ => parseUnsigned cs

/-- Strip leading and trailing whitespace. -/
def trimChars (cs : List Char) : List Char :=
  ((cs.dropWhile Char.isWhitespace).reverse.dropWhile Char.isWhitespace).reverse

/-- Model of JavaScript `Number(value)` on (signed) decimal literals with
optional fraction and exponent; the empty and all-whitespace strings give `0`,
anything else that is not such a literal gives `none` (`NaN`).  (`Infinity`
and hexadecimal forms are not modelled; the repository never relies on them.) -/
def jsNumber (s : String) : Option JsNum :=
  let t := trimChars s.data
  if t.isEmpty then some ⟨0, 1⟩ else parseSigned t

/-! ## Provider registry (`providers.ts` / `provider-core.ts`) -/

/-- The closed provider enumeration. -/
inductive Provider
  | openai
  | anthropic
  | google
  | mistral
  | cohere
  | bedrock
  | openrouter
  | vercel
deriving DecidableEq, Repr

/-- The string identifier of each provider. -/
def providerName : Provider → String
  | .openai => "openai"
  | .anthropic => "anthropic"
  | .google => "google"
  | .mistral => "mistral"
  | .cohere => "cohere"
  | .bedrock => "bedrock"
  | .openrouter => "openrouter"
  | .vercel => "vercel"

/-- `detectProvider` — substring-matches the host, gateways first, then the
multi-tenant vendor, then native vendors. -/
def detectProvider (host : String) : Option Provider :=
  if strIncludes host "openrouter" then some .openrouter
  else if strIncludes host "gateway.ai.vercel" then some .vercel
  else if strIncludes host "amazonaws" || strIncludes host "bedrock" then some .bedrock
  else if strIncludes host "openai" then some .openai
  else if strIncludes host "anthropic" || strIncludes host "claude" then some .anthropic
  else if strIncludes host "googleapis" || strIncludes host "google" then some .google
  else if strIncludes host "mistral" then some .mistral
  else if strIncludes host "cohere" then some .cohere
  else none

/-- `ALIASES` — shorthand parameter key to canonical parameter key. -/
def aliasLookup : String → Option String
  | "temp" => some "temperature"
  | "max" => some "max_tokens"
  | "max_out" => some "max_tokens"
  | "max_output" => some "max_tokens"
  | "max_output_tokens" => some "max_tokens"
  | "max_completion_tokens" => some "max_tokens"
  | "maxOutputTokens" => some "max_tokens"
  | "maxTokens" => some "max_tokens"
  | "topp" => some "top_p"
  | "topP" => some "top_p"
  | "nucleus" => some "top_p"
  | "topk" => some "top_k"
  | "topK" => some "top_k"
  | "freq" => some "frequency_penalty"
  | "freq_penalty" => some "frequency_penalty"
  | "frequencyPenalty" => some "frequency_penalty"
  | "repetition_penalty" => some "frequency_penalty"
  | "pres" => some "presence_penalty"
  | "pres_penalty" => some "presence_penalty"
  | "presencePenalty" => some "presence_penalty"
  | "stop_sequences" => some "stop"
  | "stopSequences" => some "stop"
  | "stop_sequence" => some "stop"
  | "random_seed" => some "seed"
  | "randomSeed" => some "seed"
  | "candidateCount" => some "n"
  | "candidate_count" => some "n"
  | "num_completions" => some "n"
  | "reasoning_effort" => some "effort"
  | "reasoning" => some "effort"
  | "cache_control" => some "cache"
  | "cacheControl" => some "cache"
  | "cachePoint" => some "cache"
  | "cache_point" => some "cache"
  | _ => none

/-- `PROVIDER_PARAMS` — canonical parameter name to provider-specific API
parameter name, per provider, in source table order. -/
def providerParams : Provider → List (String × String)
  | .openai =>
    [("temperature", "temperature"), ("max_tokens", "max_tokens"),
     ("top_p", "top_p"), ("frequency_penalty", "frequency_penalty"),
     ("presence_penalty", "presence_penalty"), ("stop", "stop"), ("n", "n"),
     ("seed", "seed"), ("stream", "stream"), ("effort", "reasoning_effort")]
  | .anthropic =>
    [("temperature", "temperature"), ("max_tokens", "max_tokens"),
     ("top_p", "top_p"), ("top_k", "top_k"), ("stop", "stop_sequences"),
     ("stream", "stream"), ("effort", "effort"), ("cache", "cache_control"),
     ("cache_ttl", "cache_ttl")]
  | .google =>
    [("temperature", "temperature"), ("max_tokens", "maxOutputTokens"),
     ("top_p", "topP"), ("top_k", "topK"),
     ("frequency_penalty", "frequencyPenalty"),
     ("presence_penalty", "presencePenalty"), ("stop", "stopSequences"),
     ("n", "candidateCount"), ("stream", "stream"), ("seed", "seed"),
     ("responseMimeType", "responseMimeType"), ("responseSchema", "responseSchema")]
  | .mistral =>
    [("temperature", "temperature"), ("max_tokens", "max_tokens"),
     ("top_p", "top_p"), ("frequency_penalty", "frequency_penalty"),
     ("presence_penalty", "presence_penalty"), ("stop", "stop"), ("n", "n"),
     ("seed", "random_seed"), ("stream", "stream"),
     ("safe_prompt", "safe_prompt"), ("min_tokens", "min_tokens")]
  | .cohere =>
    [("temperature", "temperature"), ("max_tokens", "max_tokens"),
     ("top_p", "p"), ("top_k", "k"), ("frequency_penalty", "frequency_penalty"),
     ("presence_penalty", "presence_penalty"), ("stop", "stop_sequences"),
     ("stream", "stream"), ("seed", "seed")]
  | .bedrock =>
    [("temperature", "temperature"), ("max_tokens", "maxTokens"),
     ("top_p", "topP"), ("top_k", "topK"), ("stop", "stopSequences"),
     ("stream", "stream"), ("cache", "cache_control"), ("cache_ttl", "cache_ttl")]
  | .openrouter =>
    [("temperature", "temperature"), ("max_tokens", "max_tokens"),
     ("top_p", "top_p"), ("top_k", "top_k"),
     ("frequency_penalty", "frequency_penalty"),
     ("presence_penalty", "presence_penalty"), ("stop", "stop"), ("n", "n"),
     ("seed", "seed"), ("stream", "stream"), ("effort", "reasoning_effort")]
  | .vercel =>
    [("temperature", "temperature"), ("max_tokens", "max_tokens"),
     ("top_p", "top_p"), ("top_k", "top_k"),
     ("frequency_penalty", "frequency_penalty"),
     ("presence_penalty", "presence_penalty"), ("stop", "stop"), ("n", "n"),
     ("seed", "seed"), ("stream", "stream"), ("effort", "reasoning_effort")]

/-- The type tag of a `ParamSpec` (`"number"`, `"string"`, `"boolean"`). -/
inductive PType
  | num
  | str
  | boolean
deriving DecidableEq, Repr

/-- `ParamSpec` — a type tag with optional numeric bounds and an optional
enumeration.  (The `default`/`description` fields of the source tables are
never read by the validator and are omitted.) -/
structure ParamSpec where
  type : PType
  min? : Option Int := none
  max? : Option Int := none
  values? : Option (List String) := none
deriving DecidableEq, Repr

/-- `PARAM_SPECS` — validation specs per provider, keyed by provider-specific
param name, in source table order. -/
def paramSpecs : Provider → List (String × ParamSpec)
  | .openai =>
    [("temperature", { type := .num, min? := some 0, max? := some 2 }),
     ("max_tokens", { type := .num, min? := some 1 }),
     ("top_p", { type := .num, min? := some 0, max? := some 1 }),
     ("frequency_penalty", { type := .num, min? := some (-2), max? := some 2 }),
     ("presence_penalty", { type := .num, min? := some (-2), max? := some 2 }),
     ("stop", { type := .str }),
     ("n", { type := .num, min? := some 1 }),
     ("seed", { type := .num }),
     ("stream", { type := .boolean }),
     ("reasoning_effort",
      { type := .str,
        values? := some ["none", "minimal", "low", "medium", "high", "xhigh"] })]
  | .anthropic =>
    [("temperature", { type := .num, min? := some 0, max? := some 1 }),
     ("max_tokens", { type := .num, min? := some 1 }),
     ("top_p", { type := .num, min? := some 0, max? := some 1 }),
     ("top_k", { type := .num, min? := some 0 }),
     ("stop_sequences", { type := .str }),
     ("stream", { type := .boolean }),
     ("effort", { type := .str, values? := some ["low", "medium", "high", "max"] }),
     ("cache_control", { type := .str, values? := some ["ephemeral"] }),
     ("cache_ttl", { type := .str, values? := some ["5m", "1h"] })]
  | .google =>
    [("temperature", { type := .num, min? := some 0, max? := some 2 }),
     ("maxOutputTokens", { type := .num, min? := some 1 }),
     ("topP", { type := .num, min? := some 0, max? := some 1 }),
     ("topK", { type := .num, min? := some 0 }),
     ("frequencyPenalty", { type := .num, min? := some (-2), max? := some 2 }),
     ("presencePenalty", { type := .num, min? := some (-2), max? := some 2 }),
     ("stopSequences", { type := .str }),
     ("candidateCount", { type := .num, min? := some 1 }),
     ("stream", { type := .boolean }),
     ("seed", { type := .num }),
     ("responseMimeType", { type := .str }),
     ("responseSchema", { type := .str })]
  | .mistral =>
    [("temperature", { type := .num, min? := some 0, max? := some 1 }),
     ("max_tokens", { type := .num, min? := some 1 }),
     ("top_p", { type := .num, min? := some 0, max? := some 1 }),
     ("frequency_penalty", { type := .num, min? := some (-2), max? := some 2 }),
     ("presence_penalty", { type := .num, min? := some (-2), max? := some 2 }),
     ("stop", { type := .str }),
     ("n", { type := .num, min? := some 1 }),
     ("random_seed", { type := .num }),
     ("stream", { type := .boolean }),
     ("safe_prompt", { type := .boolean }),
     ("min_tokens", { type := .num, min? := some 0 })]
  | .cohere =>
    [("temperature", { type := .num, min? := some 0, max? := some 1 }),
     ("max_tokens", { type := .num, min? := some 1 }),
     ("p", { type := .num, min? := some 0, max? := some 1 }),
     ("k", { type := .num, min? := some 0, max? := some 500 }),
     ("frequency_penalty", { type := .num, min? := some 0, max? := some 1 }),
     ("presence_penalty", { type := .num, min? := some 0, max? := some 1 }),
     ("stop_sequences", { type := .str }),
     ("stream", { type := .boolean }),
     ("seed", { type := .num })]
  | .bedrock =>
    [("temperature", { type := .num, min? := some 0, max? := some 1 }),
     ("maxTokens", { type := .num, min? := some 1 }),
     ("topP", { type := .num, min? := some 0, max? := some 1 }),
     ("topK", { type := .num, min? := some 0 }),
     ("stopSequences", { type := .str }),
     ("stream", { type := .boolean }),
     ("cache_control", { type := .str, values? := some ["ephemeral"] }),
     ("cache_ttl", { type := .str, values? := some ["5m", "1h"] })]
  | .openrouter =>
    [("temperature", { type := .num, min? := some 0, max? := some 2 }),
     ("max_tokens", { type := .num, min? := some 1 }),
     ("top_p", { type := .num, min? := some 0, max? := some 1 }),
     ("top_k", { type := .num, min? := some 0 }),
     ("frequency_penalty", { type := .num, min? := some (-2), max? := some 2 }),
     ("presence_penalty", { type := .num, min? := some (-2), max? := some 2 }),
     ("stop", { type := .str }),
     ("n", { type := .num, min? := some 1 }),
     ("seed", { type := .num }),
     ("stream", { type := .boolean }),
     ("reasoning_effort",
      { type := .str,
        values? := some ["none", "minimal", "low", "medium", "high", "xhigh"] })]
  | .vercel =>
    [("temperature", { type := .num, min? := some 0, max? := some 2 }),
     ("max_tokens", { type := .num, min? := some 1 }),
     ("top_p", { type := .num, min? := some 0, max? := some 1 }),
     ("top_k", { type := .num, min? := some 0 }),
     ("frequency_penalty", { type := .num, min? := some (-2), max? := some 2 }),
     ("presence_penalty", { type := .num, min? := some (-2), max? := some 2 }),
     ("stop", { type := .str }),
     ("n", { type := .num, min? := some 1 }),
     ("seed", { type := .num }),
     ("stream", { type := .boolean }),
     ("reasoning_effort",
      { type := .str,
        values? := some ["none", "minimal", "low", "medium", "high", "xhigh"] })]

/-- `isReasoningModel` — strip any gateway segment before the last `/`, then
match the remaining name against `^o[134]`. -/
def isReasoningModel (model : String) : Bool :=
  let nm :=
    if model.data.contains '/' then (splitOnChar '/' model.data).getLastD model.data
    else model.data
  match nm with
  | 'o' :: c :: _ => c == '1' || c == '3' || c == '4'
  | _ => false

/-- `canHostOpenAIModels` — native OpenAI plus the two gateways. -/
def canHostOpenAIModels (provider : Provider) : Bool :=
  provider == .openai || provider == .openrouter || provider == .vercel

/-- `isGatewayProvider` — true only for the two gateway identifiers. -/
def isGatewayProvider (provider : Provider) : Bool :=
  provider == .openrouter || provider == .vercel

/-- The direct (non-gateway, non-multi-tenant) providers checked by
`detectGatewaySubProvider`, in source order. -/
def directProviders : List Provider :=
  [.openai, .anthropic, .google, .mistral, .cohere]

/-- `detectGatewaySubProvider` — the segment before the first `/` of the model,
matched against the direct providers; `none` without a `/`, with a leading `/`,
or for an unrecognized prefix. -/
def detectGatewaySubProvider (model : String) : Option Provider :=
  match splitOnChar '/' model.data with
  | seg0 :: _ :: _ =>
    if seg0.isEmpty then none
    else directProviders.find? (fun p => (providerName p).data == seg0)
  | _ => none

/-- `REASONING_MODEL_UNSUPPORTED` — params reasoning models never accept. -/
def reasoningModelUnsupported : List String :=
  ["temperature", "top_p", "frequency_penalty", "presence_penalty", "n"]

/-- The closed Bedrock model family enumeration. -/
inductive BedrockModelFamily
  | anthropic
  | meta
  | amazon
  | mistral
  | cohere
  | ai21
deriving DecidableEq, Repr

/-- The string identifier of each Bedrock model family. -/
def familyName : BedrockModelFamily → String
  | .anthropic => "anthropic"
  | .meta => "meta"
  | .amazon => "amazon"
  | .mistral => "mistral"
  | .cohere => "cohere"
  | .ai21 => "ai21"

/-- The family list searched by `detectBedrockModelFamily`, in source order. -/
def bedrockFamilies : List BedrockModelFamily :=
  [.anthropic, .meta, .amazon, .mistral, .cohere, .ai21]

/-- `detectBedrockModelFamily` — split the model id on `.`; skip a leading
region/global routing token (`us`, `eu`, `apac`, `global`) when a next segment
exists; match the chosen segment against the closed family set. -/
def detectBedrockModelFamily (model : String) : Option BedrockModelFamily :=
  let parts := splitOnChar '.' model.data
  let seg0 := parts.headD []
  let seg :=
    if (seg0 == "us".data || seg0 == "eu".data || seg0 == "apac".data ||
        seg0 == "global".data) && decide (1 < parts.length) then
      parts.getD 1 []
    else seg0
  bedrockFamilies.find? (fun f => seg == (familyName f).data)

/-- `bedrockSupportsCaching` — Claude always; Amazon only with the `nova`
product marker in the model id. -/
def bedrockSupportsCaching (model : String) : Bool :=
  match detectBedrockModelFamily model with
  | some .anthropic => true
  | some .amazon => strIncludes model "nova"
  | _ => false

/-- `CACHE_VALUES` — the fixed "enabled" cache value per provider. -/
def cacheValues : Provider → Option String
  | .anthropic => some "ephemeral"
  | .bedrock => some "ephemeral"
  | _ => none

/-- `CACHE_TTLS` — the valid cache TTL values per provider. -/
def cacheTtls : Provider → Option (List String)
  | .anthropic => some ["5m", "1h"]
  | .bedrock => some ["5m", "1h"]
  | _ => none

/-- `DURATION_RE` — the pattern `^\d+[mh]$`. -/
def isDurationString (s : String) : Bool :=
  match s.data.reverse with
  | last :: rest => (last == 'm' || last == 'h') && !rest.isEmpty && rest.all Char.isDigit
  | [] => false

/-! ## Connection records and the normalizer (`normalize.ts`) -/

/-- `LlmConnectionConfig` — the parsed form of a connection string. -/
structure LlmConnectionConfig where
  raw : String
  host : String
  model : String
  label : Option String := none
  apiKey : Option String := none
  params : List (String × String)
deriving DecidableEq, Repr

/-- `NormalizeChange` — one record per rewrite performed (verbose mode only).
The source field `from` is a Lean keyword and is embedded as `from_`. -/
structure NormalizeChange where
  from_ : String
  to_ : String
  value : String
  reason : String
deriving DecidableEq, Repr

/-- `NormalizeOptions` — `verbose` populates the change log. -/
structure NormalizeOptions where
  verbose : Bool
deriving DecidableEq, Repr

/-- `NormalizeResult` — the rewritten record, the detected provider, the
detected gateway sub-provider, and the change log. -/
structure NormalizeResult where
  config : LlmConnectionConfig
  provider : Option Provider
  subProvider : Option Provider
  changes : List NormalizeChange
deriving DecidableEq, Repr

/-- Steps 3–4 of the per-parameter rewrite: provider-specific rename, then the
reasoning-model `max_tokens` → `max_completion_tokens` rename, then emission
of the final key/value into the output record. -/
def normFinish (provider? : Option Provider) (model : String) (verbose : Bool)
    (params : List (String × String)) (changes : List NormalizeChange)
    (key value : String) : List (String × String) × List NormalizeChange :=
  let step3 : String × List NormalizeChange :=
    match provider? with
    | some provider =>
      match (providerParams provider).lookup key with
      | some providerKey =>
        if providerKey ≠ key then
          (providerKey,
           if verbose then
             changes ++ [⟨key, providerKey, value,
               providerName provider ++ " uses \"" ++ providerKey ++
                 "\" instead of \"" ++ key ++ "\""⟩]
           else changes)
        else (key, changes)
      | none => (key, changes)
    | none => (key, changes)
  let key2 := step3.1
  let changes2 := step3.2
  let step4 : String × List NormalizeChange :=
    match provider? with
    | some provider =>
      if canHostOpenAIModels provider && isReasoningModel model &&
          key2 == "max_tokens" then
        ("max_completion_tokens",
         if verbose then
           changes2 ++ [⟨"max_tokens", "max_completion_tokens", value,
             "OpenAI reasoning models use max_completion_tokens instead of max_tokens"⟩]
         else changes2)
      else (key2, changes2)
    | none => (key2, changes2)
  (objInsert params step4.1 value, step4.2)

/-- The effective cache value of step 2 of `normalize`: the provider's
configured value, additionally gated on `bedrockSupportsCaching` for the
multi-tenant vendor. -/
def normCacheValue (provider : Provider) (model : String) : Option String :=
  if provider == .bedrock && !bedrockSupportsCaching model then none
  else cacheValues provider

/-- The native name the cache directive is emitted under in step 2 of
`normalize` — the source's `PROVIDER_PARAMS[provider]?.["cache"] ?? "cache"`. -/
def cacheProviderKey (provider : Provider) : String :=
  ((providerParams provider).lookup "cache").getD "cache"

/-- Record key membership (`key in obj` on the association-list model). -/
def containsKey (m : List (String × String)) (k : String) : Bool :=
  m.any (fun q => q.1 == k)

/-- Observer: does this input entry take the cache-duration branch of
`normStep` (the only branch that emits two output entries)?  Mirrors the
branch's conditions: the alias-expanded key is `cache`, the provider/model
combination has an effective cache value, the value is a duration string, and
the provider has a cache-TTL table. -/
def cacheDurationRewriteHappens (provider? : Option Provider) (model : String)
    (e : String × String) : Bool :=
  let key := match aliasLookup e.1 with | some c => c | none => e.1
  match provider? with
  | some provider =>
    key == "cache" && (normCacheValue provider model).isSome &&
      isDurationString e.2 && (cacheTtls provider).isSome
  | none => false

/-- Proof-side measure for the size bound: record length plus one spare unit
that is consumed once both cache output keys are present. -/
def weight (provider? : Option Provider) (m : List (String × String)) : Nat :=
  m.length +
    (match provider? with
     | some p =>
       if containsKey m (cacheProviderKey p) && containsKey m "cache_ttl" then 0 else 1
     | none => 1)

/-- One iteration of the `normalize` loop over the input param entries:
alias expansion, the `cache` special case, then `normFinish`. -/
def normStep (provider? : Option Provider) (model : String) (verbose : Bool)
    (acc : List (String × String) × List NormalizeChange)
    (entry : String × String) : List (String × String) × List NormalizeChange :=
  let params := acc.1
  let rawKey := entry.1
  let value := entry.2
  let step1 : String × List NormalizeChange :=
    match aliasLookup rawKey with
    | some canonical =>
      (canonical,
       if verbose then
         acc.2 ++ [⟨rawKey, canonical, value,
           "alias: \"" ++ rawKey ++ "\" → \"" ++ canonical ++ "\""⟩]
       else acc.2)
    | none => (rawKey, acc.2)
  let key := step1.1
  let changes := step1.2
  match provider? with
  | some provider =>
    if key == "cache" then
      match normCacheValue provider model with
      | none =>
        (params,
         if verbose then
           changes ++ [⟨"cache", "(dropped)", value,
             providerName provider ++
               " does not use a cache param for this model (caching is automatic or unsupported)"⟩]
         else changes)
      | some cv =>
        let isBool := value == "true" || value == "1" || value == "yes"
        let isDuration := isDurationString value
        if isBool || isDuration then
          let providerKey := cacheProviderKey provider
          let changesB :=
            if verbose then
              changes ++ [⟨"cache", providerKey, cv,
                "cache=" ++ value ++ " → " ++ providerKey ++ "=" ++ cv ++
                  " for " ++ providerName provider⟩]
            else changes
          let paramsB := objInsert params providerKey cv
          if isDuration && (cacheTtls provider).isSome then
            (objInsert paramsB "cache_ttl" value,
             if verbose then
               changesB ++ [⟨"cache", "cache_ttl", value,
                 "cache=" ++ value ++ " → cache_ttl=" ++ value ++ " for " ++
                   providerName provider⟩]
             else changesB)
          else (paramsB, changesB)
        else normFinish provider? model verbose params changes key value
    else normFinish provider? model verbose params changes key value
  | none => normFinish provider? model verbose params changes key value

/-- Modelled from the spec: which sub-provider `normalize` reports.  The
revision of `normalize.ts` that returns the `subProvider` field is not among
the sources (only its tests and its caller `validate.ts` are); per the spec,
the normalizer produces "the detected gateway sub-provider (if applicable)"
and the validator uses it "if the detected provider is a gateway AND a
sub-provider was detected from the model prefix", so the field is the result
of `detectGatewaySubProvider` on the model exactly when the detected provider
is a gateway, and `none` otherwise. -/
def normalizeSubProvider (provider? : Option Provider) (model : String) :
    Option Provider :=
  match provider? with
  | some p => if isGatewayProvider p then detectGatewaySubProvider model else none
  | none => none

/-- `normalize` — rewrite a connection record's params for its detected
provider: alias expansion, the cache special case, provider-specific renames
and the reasoning-model rename, emitting an insertion-ordered output record
and (in verbose mode) a change log. -/
def normalize (config : LlmConnectionConfig) (options : NormalizeOptions) :
    NormalizeResult :=
  let provider := detectProvider config.host
  let acc := config.params.foldl (normStep provider config.model options.verbose) ([], [])
  { config := { config with params := acc.1 }
    provider := provider
    subProvider := normalizeSubProvider provider config.model
    changes := acc.2 }

/-! ## The validator (`validate.ts`) -/

/-- Issue severity. -/
inductive Severity
  | error
  | warning
deriving DecidableEq, Repr

/-- `ValidationIssue` — `{param, value, message, severity}`. -/
structure ValidationIssue where
  param : String
  value : String
  message : String
  severity : Severity
deriving DecidableEq, Repr

/-- The unknown-provider message. -/
def unknownProviderMessage (host : String) : String :=
  "Unknown provider for host \"" ++ host ++ "\". Validation skipped."

/-- The reasoning-model unsupported-parameter message. -/
def notSupportedMessage (key model : String) : String :=
  "\"" ++ key ++ "\" is not supported by OpenAI reasoning model \"" ++ model ++
    "\". Use \"reasoning_effort\" instead of temperature for controlling output."

/-- The Bedrock `topK` family restriction message. -/
def topKMessage (family : BedrockModelFamily) : String :=
  "\"topK\" is not supported by " ++ familyName family ++ " models on Bedrock."

/-- The Bedrock `cache_control` family restriction message. -/
def cacheControlMessage (family? : Option BedrockModelFamily) : String :=
  "Prompt caching is only supported for Anthropic Claude and Amazon Nova models on Bedrock, not " ++
    (match family? with | some f => familyName f | none => "unknown") ++ " models."

/-- The unknown-parameter message. -/
def unknownParamMessage (key : String) (effectiveProvider : Provider) : String :=
  "Unknown param \"" ++ key ++ "\" for " ++ providerName effectiveProvider ++ "."

/-- The temperature/nucleus-sampling mutual exclusion message. -/
def exclusionMessage (otherKey : String) : String :=
  "Cannot specify both \"temperature\" and \"" ++ otherKey ++ "\" for Anthropic models."

/-- The non-numeric value message. -/
def nanMessage (key value : String) : String :=
  "\"" ++ key ++ "\" should be a number, got \"" ++ value ++ "\"."

/-- The below-minimum message. -/
def minMessage (key : String) (m : Int) (q : JsNum) : String :=
  "\"" ++ key ++ "\" must be >= " ++ intToString m ++ ", got " ++ q.render ++ "."

/-- The above-maximum message. -/
def maxMessage (key : String) (m : Int) (q : JsNum) : String :=
  "\"" ++ key ++ "\" must be <= " ++ intToString m ++ ", got " ++ q.render ++ "."

/-- The non-boolean value message. -/
def booleanMessage (key value : String) : String :=
  "\"" ++ key ++ "\" should be a boolean (true/false), got \"" ++ value ++ "\"."

/-- The enum violation message. -/
def enumMessage (key : String) (vs : List String) (value : String) : String :=
  "\"" ++ key ++ "\" must be one of [" ++ String.intercalate ", " vs ++
    "], got \"" ++ value ++ "\"."

/-- `buildReverseParamMap` — provider-specific param name back to canonical
name; building the JavaScript object lets later entries overwrite earlier
ones, so the lookup searches the reversed table. -/
def reverseParamLookup (provider : Provider) (specific : String) : Option String :=
  (((providerParams provider).reverse).find? (fun e => e.2 == specific)).map
    (fun e => e.1)

/-- `lookupSubProviderSpec` — map a gateway-normalized param name through its
canonical form to the sub-provider's spec table. -/
def lookupSubProviderSpec (gatewayParamName : String)
    (gateway subProvider : Provider) : Option ParamSpec :=
  let canonical := (reverseParamLookup gateway gatewayParamName).getD gatewayParamName
  match (providerParams subProvider).lookup canonical with
  | none => none
  | some subProviderKey => (paramSpecs subProvider).lookup subProviderKey

/-- `buildSubProviderKnownParams` — the gateway param names whose canonical
form the sub-provider supports. -/
def buildSubProviderKnownParams (gateway subProvider : Provider) : List String :=
  (providerParams gateway).filterMap
    (fun e =>
      if (providerParams subProvider).any (fun s => s.1 == e.1) then some e.2
      else none)

/-- The Bedrock model-family-specific checks (`topK` and `cache_control`). -/
def bedrockIssue (model key value : String) : Option ValidationIssue :=
  match detectBedrockModelFamily model with
  | some f =>
    if key == "topK" && !(f == .anthropic || f == .cohere || f == .mistral) then
      some ⟨key, value, topKMessage f, .error⟩
    else if key == "cache_control" && !bedrockSupportsCaching model then
      some ⟨key, value, cacheControlMessage (some f), .error⟩
    else none
  | none =>
    if key == "cache_control" && !bedrockSupportsCaching model then
      some ⟨key, value, cacheControlMessage none, .error⟩
    else none

/-- The type/range/enum checks against a found `ParamSpec`. -/
def specCheckIssues (key value : String) (spec : ParamSpec) : List ValidationIssue :=
  match spec.type with
  | .num =>
    match jsNumber value with
    | none => [⟨key, value, nanMessage key value, .error⟩]
    | some q =>
      (match spec.min? with
       | some m =>
         if q.ltInt m then [⟨key, value, minMessage key m q, .error⟩] else []
       | none => []) ++
      (match spec.max? with
       | some m =>
         if q.gtInt m then [⟨key, value, maxMessage key m q, .error⟩] else []
       | none => [])
  | .boolean =>
    if value == "true" || value == "false" || value == "0" || value == "1" then []
    else [⟨key, value, booleanMessage key value, .error⟩]
  | .str =>
    match spec.values? with
    | some vs =>
      if vs.contains value then [] else [⟨key, value, enumMessage key vs value, .error⟩]
    | none => []

/-- The known-param set of the `validate` loop: the sub-provider filtered set
when routing through a gateway, otherwise the provider's native names. -/
def knownParamsFor (provider : Provider) (subProvider? : Option Provider) : List String :=
  match subProvider? with
  | some sp => buildSubProviderKnownParams provider sp
  | none => (providerParams provider).map (fun (e : String × String) => e.2)

/-- The spec lookup of the `validate` loop: by native name in the effective
provider's table, then (in a gateway+sub-provider situation) through the
reverse-canonical fallback. -/
def effectiveSpec (provider : Provider) (subProvider? : Option Provider)
    (key : String) : Option ParamSpec :=
  match (paramSpecs (subProvider?.getD provider)).lookup key with
  | some s => some s
  | none =>
    match subProvider? with
    | some sp => lookupSubProviderSpec key provider sp
    | none => none

/-- The `otherKey` of the mutual-exclusion check: the native nucleus-sampling
counterpart when looking at `temperature`, `temperature` otherwise. -/
def exclusionOtherKey (provider : Provider) (key : String) : String :=
  if key == "temperature" then
    if provider == .bedrock then "topP" else "top_p"
  else "temperature"

/-- The Anthropic temperature/top_p mutual-exclusion issues of the `validate`
loop (emitted once a spec was found for the param). -/
def exclusionIssuesFor (provider : Provider) (subProvider? : Option Provider)
    (config : LlmConnectionConfig) (key value : String) : List ValidationIssue :=
  if (subProvider?.getD provider == .anthropic ||
      (provider == .bedrock &&
        detectBedrockModelFamily config.model == some .anthropic)) &&
     (key == "temperature" || key == "top_p" || key == "topP") then
    if key == "temperature" &&
        (config.params.lookup (exclusionOtherKey provider key)).isSome then
      [⟨key, value, exclusionMessage (exclusionOtherKey provider key), .error⟩]
    else []
  else []

/-- The issues the `validate` loop body emits for one normalized param entry,
in source priority order: reasoning-model restriction, Bedrock family checks,
unknown-param check, spec lookup with gateway fallback, the Anthropic
temperature/top_p mutual exclusion, then type/range/enum checks. -/
def paramIssues (provider : Provider) (subProvider? : Option Provider)
    (config : LlmConnectionConfig) (strict : Bool) (key value : String) :
    List ValidationIssue :=
  if canHostOpenAIModels provider && isReasoningModel config.model &&
      reasoningModelUnsupported.contains key then
    [⟨key, value, notSupportedMessage key config.model, .error⟩]
  else
    match (if provider == .bedrock then bedrockIssue config.model key value else none) with
    | some issue => [issue]
    | none =>
      if !((knownParamsFor provider subProvider?).contains key) &&
          ((paramSpecs (subProvider?.getD provider)).lookup key).isNone then
        [⟨key, value, unknownParamMessage key (subProvider?.getD provider),
          if strict then .error else .warning⟩]
      else
        match effectiveSpec provider subProvider? key with
        | none => []
        | some spec =>
          exclusionIssuesFor provider subProvider? config key value ++
            specCheckIssues key value spec

/-- The per-param loop of `validate`, with the provider and sub-provider
resolved: every normalized param entry contributes its issues in order. -/
def validateWith (provider : Provider) (subProvider? : Option Provider)
    (config : LlmConnectionConfig) (strict : Bool) : List ValidationIssue :=
  config.params.flatMap
    (fun (e : String × String) => paramIssues provider subProvider? config strict e.1 e.2)

/-- `validate` on an already-parsed record: normalize, short-circuit on an
unknown provider, otherwise run the per-param checks with the gateway
sub-provider resolution. -/
def validateCore (config : LlmConnectionConfig) (strict : Bool) : List ValidationIssue :=
  let r := normalize config ⟨false⟩
  match r.provider with
  | none =>
    [⟨"host", r.config.host, unknownProviderMessage r.config.host,
      if strict then .error else .warning⟩]
  | some provider => validateWith provider r.subProvider r.config strict

/-! ## The connection-string tokenizer (`index.ts`) -/

/-- First index at which `needle` occurs in `hay`. -/
def findSeqIdx : List Char → List Char → Option Nat
  | [], n => if n.isEmpty then some 0 else none
  | c :: cs, n =>
    if startsWithChars n (c :: cs) then some 0
    else (findSeqIdx cs n).map (fun i => i + 1)

/-- Split at the first occurrence of a character: the part before it, and the
part after it when it occurs. -/
def splitFirst (sep : Char) (cs : List Char) : List Char × Option (List Char) :=
  match cs.findIdx? (fun c => c == sep) with
  | none => (cs, none)
  | some i => (cs.take i, some (cs.drop (i + 1)))

/-- A character allowed in a URL scheme after the leading letter. -/
def isSchemeTailChar (c : Char) : Bool :=
  c.isAlphanum || c == '+' || c == '-' || c == '.'

/-- The decomposed URL fields `parse` reads off the URL object. -/
structure RawUrl where
  protocol : String
  username : String
  password : String
  hostname : String
  pathname : String
  query : List (String × String)
deriving DecidableEq, Repr

/-- The query pairs, applied to a record in order with later keys overwriting
earlier ones — the `for ([key, value] of url.searchParams)` loop of `parse`. -/
def parseQuery : Option (List Char) → List (String × String)
  | none => []
  | some q =>
    ((splitOnChar '&' q).filter (fun seg => !seg.isEmpty)).foldl
      (fun acc seg =>
        let kv := splitFirst '=' seg
        objInsert acc kv.1.asString ((kv.2.getD []).asString)) []

/-- Modelled from the spec: the WHATWG `URL` constructor that `parse` calls is
platform code external to the repository ("the external tokenizer").  This
model accepts `scheme://[user[:pass]@]host[/path][?query]` — a scheme of a
letter followed by letters, digits, `+`, `-` or `.`, then `://`, then an
optional userinfo split at the first `:`, a host up to the first `/` or `?`,
a path and a query — and rejects (`none`, the constructor throw) any string
without a well-formed `scheme://` head.  Percent-decoding and host
canonicalization are not modelled; the repository's connection strings do not
rely on them. -/
def urlParse (s : String) : Option RawUrl :=
  match findSeqIdx s.data "://".data with
  | none => none
  | some i =>
    let scheme := s.data.take i
    let rest := s.data.drop (i + 3)
    let schemeOk :=
      match scheme with
      | c :: cs => c.isAlpha && cs.all isSchemeTailChar
      | [] => false
    if schemeOk then
      let afterQ := splitFirst '?' rest
      let beforePath := splitFirst '/' afterQ.1
      let userinfoHost : Option (List Char) × List Char :=
        match splitFirst '@' beforePath.1 with
        | (h, none) => (none, h)
        | (u, some h) => (some u, h)
      let userPass : List Char × List Char :=
        match userinfoHost.1 with
        | none => ([], [])
        | some u =>
          match splitFirst ':' u with
          | (usr, none) => (usr, [])
          | (usr, some pw) => (usr, pw)
      let pathname :=
        match beforePath.2 with
        | none => ([] : List Char)
        | some p => '/' :: p
      some
        { protocol := scheme.asString ++ ":"
          username := userPass.1.asString
          password := userPass.2.asString
          hostname := userinfoHost.2.asString
          pathname := pathname.asString
          query := parseQuery afterQ.2 }
    else none

/-- Drop a single leading `/` — the `url.pathname.replace(/^\//, "")` of
`parse`. -/
def stripLeadingSlash (s : String) : String :=
  match s.data with
  | '/' :: rest => rest.asString
  | _ => s

/-- `parse` — tokenize a connection string.  The `Except` models the two
throw sites: the URL constructor failure and the non-`llm:` scheme check. -/
def parse (connectionString : String) : Except String LlmConnectionConfig :=
  match urlParse connectionString with
  | none => Except.error "TypeError: Invalid URL"
  | some url =>
    if url.protocol ≠ "llm:" then
      Except.error
        ("Invalid scheme: expected \"llm://\", got \"" ++ url.protocol ++ "//\"")
    else
      Except.ok
        { raw := connectionString
          host := url.hostname
          model := stripLeadingSlash url.pathname
          label := if url.username == "" then none else some url.username
          apiKey := if url.password == "" then none else some url.password
          params := url.query }

/-- `validate` — the public entry point: parse, then run `validateCore`.  A
parse throw propagates (the `Except.error` case); the source has no catch. -/
def validate (connectionString : String) (strict : Bool) :
    Except String (List ValidationIssue) :=
  (parse connectionString).map (fun config => validateCore config strict)

/-! ## Claim-side definitions used by the theorems -/

/-- The region/global routing token set as the claim enumerates it (C9). -/
def claimRoutingTokens : List (List Char) :=
  ["us".data, "eu".data, "apac".data, "global".data]

/-- The segment the claim says is matched (C9): split the id on `.`, discard
the first segment when it is a routing token and a next segment exists. -/
def claimChosenSegment (model : String) : List Char :=
  let parts := splitOnChar '.' model.data
  let first := parts.headD []
  if claimRoutingTokens.any (fun t => first == t) && decide (1 < parts.length) then
    parts.getD 1 []
  else first

/-- The claim's closed family set (C9), matched directly. -/
def claimFamilyOfSegment (seg : List Char) : Option BedrockModelFamily :=
  if seg == "anthropic".data then some .anthropic
  else if seg == "meta".data then some .meta
  else if seg == "amazon".data then some .amazon
  else if seg == "mistral".data then some .mistral
  else if seg == "cohere".data then some .cohere
  else if seg == "ai21".data then some .ai21
  else none

/-- Severity upgrade (C6): the warning-to-error promotion, leaving every other
field and every error-severity issue unchanged. -/
def bump (i : ValidationIssue) : ValidationIssue :=
  match i.severity with
  | .warning => ⟨i.param, i.value, i.message, .error⟩
  | .error => i

/-- A mutual-exclusion issue (C3): one whose message is the exclusion message
for either native nucleus-sampling spelling. -/
def isMutualExclusionIssue (i : ValidationIssue) : Bool :=
  i.message == exclusionMessage "top_p" || i.message == exclusionMessage "topP"

/-! ## Theorems -/

/-- Lemma: the routing-token membership test is the source's or-chain. -/
lemma claim_routing_any (x : List Char) :
    claimRoutingTokens.any (fun t => x == t) =
      (x == "us".data || x == "eu".data || x == "apac".data || x == "global".data) := by
  simp [claimRoutingTokens, List.any_cons, List.any_nil, Bool.or_assoc]

/-- Lemma: the source's `find?` over the family list is the claim's direct
match against the closed family set. -/
lemma claimFamilyOfSegment_eq_find (seg : List Char) :
    bedrockFamilies.find? (fun f => seg == (familyName f).data) =
      claimFamilyOfSegment seg := by
  unfold bedrockFamilies claimFamilyOfSegment
  cases e1 : (seg == "anthropic".data) <;>
    cases e2 : (seg == "meta".data) <;>
      cases e3 : (seg == "amazon".data) <;>
        cases e4 : (seg == "mistral".data) <;>
          cases e5 : (seg == "cohere".data) <;>
            cases e6 : (seg == "ai21".data) <;>
              simp [List.find?, familyName, e1, e2, e3, e4, e5, e6]

/-- C5: for every connection record whose host matches no known provider
signature, `validate` returns exactly one issue: the synthetic `"host"` param,
a message naming the unrecognized host (see `unknownProviderMessage`),
severity `warning` normally and `error` under `strict`, and the result does
not depend on the params at all (no per-parameter checks).  Stated over all
parsed records, which covers every connection string. -/
theorem validate_unknown_provider_short_circuit
    (config : LlmConnectionConfig) (strict : Bool)
    (h : detectProvider config.host = none) :
    validateCore config strict =
      [⟨"host", config.host, unknownProviderMessage config.host,
        if strict then .error else .warning⟩] := by
  unfold validateCore
  simp only [normalize, h]

/-- Witness for C5 at a concrete unknown host, in strict mode. -/
theorem validate_unknown_provider_short_circuit_witness :
    detectProvider "custom-api.com" = none ∧
    validateCore ⟨"", "custom-api.com", "my-model", none, none, [("temp", "999")]⟩ true =
      [⟨"host", "custom-api.com", unknownProviderMessage "custom-api.com",
        if true then .error else .warning⟩] :=
  ⟨by decide,
   validate_unknown_provider_short_circuit
     ⟨"", "custom-api.com", "my-model", none, none, [("temp", "999")]⟩ true (by decide)⟩

/-- C10: `validate` is not total over arbitrary strings — for a string whose
scheme differs from `llm:` the internal `parse` raises `Invalid scheme` and
`validate` propagates the throw; for a string that is no parseable URL the URL
constructor throw propagates; and the no-throw issue-list contract holds
exactly on the strings `parse` accepts. -/
theorem validate_throws_on_malformed_input :
    parse "http://api.openai.com/gpt-5.2" =
      Except.error "Invalid scheme: expected \"llm://\", got \"http://\"" ∧
    validate "http://api.openai.com/gpt-5.2" false =
      Except.error "Invalid scheme: expected \"llm://\", got \"http://\"" ∧
    parse "nonsense" = Except.error "TypeError: Invalid URL" ∧
    validate "nonsense" false = Except.error "TypeError: Invalid URL" ∧
    (∀ (s : String) (config : LlmConnectionConfig) (strict : Bool),
      parse s = Except.ok config →
      validate s strict = Except.ok (validateCore config strict)) := by
  refine ⟨by rfl, by rfl, by rfl, by rfl, ?_⟩
  intro s config strict h
  unfold validate
  rw [h]
  rfl

/-- Witness for C10's well-formed-string conjunct at a concrete connection
string. -/
theorem validate_throws_on_malformed_input_witness :
    parse "llm://api.openai.com/gpt-4o?temp=0.7" =
      Except.ok ⟨"llm://api.openai.com/gpt-4o?temp=0.7", "api.openai.com", "gpt-4o",
        none, none, [("temp", "0.7")]⟩ ∧
    validate "llm://api.openai.com/gpt-4o?temp=0.7" false =
      Except.ok (validateCore ⟨"llm://api.openai.com/gpt-4o?temp=0.7", "api.openai.com",
        "gpt-4o", none, none, [("temp", "0.7")]⟩ false) :=
  ⟨by rfl,
   validate_throws_on_malformed_input.2.2.2.2 "llm://api.openai.com/gpt-4o?temp=0.7"
     ⟨"llm://api.openai.com/gpt-4o?temp=0.7", "api.openai.com", "gpt-4o",
       none, none, [("temp", "0.7")]⟩ false (by rfl)⟩

/-- C2 counterexample: for a record whose host is a direct (non-gateway)
provider, a direct-provider prefix is detected from the model's `/`-prefix,
yet `normalize` reports no sub-provider — so "subProvider equals the direct
provider detected from the model's prefix whenever one is detected" fails as
stated. -/
theorem normalize_subProvider_counterexample :
    detectGatewaySubProvider "anthropic/claude-opus-4-6" = some .anthropic ∧
    (normalize ⟨"", "api.openai.com", "anthropic/claude-opus-4-6", none, none, []⟩
        ⟨false⟩).subProvider = none :=
  ⟨by decide, by decide⟩

/-- C2 amended: the `subProvider` field of the `normalize` result equals the
direct provider detected from the model's `/`-prefix when the detected
provider is a gateway, and is `none` otherwise. -/
theorem normalize_subProvider_gateway_gated :
    (∀ (config : LlmConnectionConfig) (options : NormalizeOptions) (g : Provider),
      detectProvider config.host = some g → isGatewayProvider g = true →
      (normalize config options).subProvider = detectGatewaySubProvider config.model) ∧
    (∀ (config : LlmConnectionConfig) (options : NormalizeOptions),
      (∀ g, detectProvider config.host = some g → isGatewayProvider g = false) →
      (normalize config options).subProvider = none) := by
  constructor
  · intro config options g h1 h2
    show normalizeSubProvider (detectProvider config.host) config.model = _
    rw [h1]
    simp [normalizeSubProvider, h2]
  · intro config options h
    show normalizeSubProvider (detectProvider config.host) config.model = _
    cases hd : detectProvider config.host with
    | none => rfl
    | some g => simp [normalizeSubProvider, h g hd]

/-- Witness for the amended C2 at a concrete gateway record. -/
theorem normalize_subProvider_gateway_gated_witness :
    detectProvider "openrouter.ai" = some .openrouter ∧
    isGatewayProvider .openrouter = true ∧
    (normalize ⟨"", "openrouter.ai", "anthropic/claude-sonnet-4-5", none, none, []⟩
        ⟨false⟩).subProvider = detectGatewaySubProvider "anthropic/claude-sonnet-4-5" :=
  ⟨by decide, by decide,
   normalize_subProvider_gateway_gated.1
     ⟨"", "openrouter.ai", "anthropic/claude-sonnet-4-5", none, none, []⟩ ⟨false⟩
     .openrouter (by decide) (by decide)⟩

/-- C9: `detectBedrockModelFamily` implements exactly the claim's algorithm —
split the id on `.`, discard a leading routing token (`us`, `eu`, `apac`,
`global`) when a next segment exists, match the chosen segment against the
closed family set, `none` on no match; in particular the region-prefixed
`us.anthropic.…` id resolves to the anthropic family and keeps cache
support. -/
theorem detectBedrockModelFamily_spec :
    (∀ model : String,
      detectBedrockModelFamily model = claimFamilyOfSegment (claimChosenSegment model)) ∧
    detectBedrockModelFamily "us.anthropic.claude-3-5-sonnet-20241022-v2:0" =
      some .anthropic ∧
    bedrockSupportsCaching "us.anthropic.claude-3-5-sonnet-20241022-v2:0" = true := by
  refine ⟨?_, by decide, by decide⟩
  intro model
  unfold detectBedrockModelFamily claimChosenSegment
  rw [← claimFamilyOfSegment_eq_find]
  simp only [claim_routing_any]

/-- Lemma: inserting into an empty record appends. -/
lemma objInsert_nil (k v : String) : objInsert [] k v = [(k, v)] := by
  simp [objInsert]

/-- C4: for every cache-capable provider/model combination (a provider with a
configured enabled-cache value; for bedrock additionally a model with
`bedrockSupportsCaching`), normalizing a record whose params are exactly
`{cache: d}` with `d` matching `^\d+[mh]$` yields exactly the two entries
`cache_control = "ephemeral"` (the provider's fixed enabled value) and
`cache_ttl = d`. -/
theorem normalize_cache_duration_round_trip
    (config : LlmConnectionConfig) (options : NormalizeOptions) (p : Provider)
    (d : String)
    (hp : detectProvider config.host = some p)
    (hc : (cacheValues p).isSome = true)
    (hb : p = .bedrock → bedrockSupportsCaching config.model = true)
    (hd : isDurationString d = true)
    (hps : config.params = [("cache", d)]) :
    (normalize config options).config.params =
      [("cache_control", "ephemeral"), ("cache_ttl", d)] := by
  have hne : (("cache_control" : String) == "cache_ttl") = false := by decide
  cases p with
  | anthropic =>
    have ha : aliasLookup "cache" = none := rfl
    have hcv : normCacheValue .anthropic config.model = some "ephemeral" := rfl
    have hl : cacheProviderKey Provider.anthropic = "cache_control" := rfl
    have ht : (cacheTtls Provider.anthropic).isSome = true := rfl
    simp only [normalize, hps, hp, List.foldl]
    simp [normStep, ha, hcv, hl, ht, hd, objInsert, hne]
  | bedrock =>
    have ha : aliasLookup "cache" = none := rfl
    have hcv : normCacheValue .bedrock config.model = some "ephemeral" := by
      simp [normCacheValue, hb rfl, cacheValues]
    have hl : cacheProviderKey Provider.bedrock = "cache_control" := rfl
    have ht : (cacheTtls Provider.bedrock).isSome = true := rfl
    simp only [normalize, hps, hp, List.foldl]
    simp [normStep, ha, hcv, hl, ht, hd, objInsert, hne]
  | openai => simp [cacheValues] at hc
  | google => simp [cacheValues] at hc
  | mistral => simp [cacheValues] at hc
  | cohere => simp [cacheValues] at hc
  | openrouter => simp [cacheValues] at hc
  | vercel => simp [cacheValues] at hc

/-- Witness for C4 at `cache=5m` on the native Anthropic host. -/
theorem normalize_cache_duration_round_trip_witness :
    detectProvider "api.anthropic.com" = some .anthropic ∧
    (cacheValues Provider.anthropic).isSome = true ∧
    isDurationString "5m" = true ∧
    (normalize ⟨"", "api.anthropic.com", "claude-sonnet-4-5", none, none,
        [("cache", "5m")]⟩ ⟨false⟩).config.params =
      [("cache_control", "ephemeral"), ("cache_ttl", "5m")] :=
  ⟨by decide, by decide, by decide,
   normalize_cache_duration_round_trip
     ⟨"", "api.anthropic.com", "claude-sonnet-4-5", none, none, [("cache", "5m")]⟩
     ⟨false⟩ .anthropic "5m" (by decide) (by decide) (by decide) (by decide) rfl⟩

/-- C1: when the detected provider is a gateway and the model prefix names a
direct provider, `validate` runs its per-parameter loop with that
sub-provider's tables (`validateWith g (some sp)` checks each normalized
parameter against `paramSpecs sp`, the sub-provider known-param set
`buildSubProviderKnownParams g sp`, and the reverse-map fallback
`lookupSubProviderSpec`), and falls back to the gateway's own loose table
(`validateWith g none`, which uses `paramSpecs g`) exactly when no
sub-provider is detected; concretely, temperature 1.5 for
`anthropic/claude-sonnet-4-5` via openrouter yields a single `<= 1` range
error, while the same temperature through an unknown `qwen/…` prefix passes
the gateway's loose table. -/
theorem validate_gateway_subprovider_resolution :
    (∀ (config : LlmConnectionConfig) (strict : Bool) (g sp : Provider),
      detectProvider config.host = some g →
      isGatewayProvider g = true →
      detectGatewaySubProvider config.model = some sp →
      validateCore config strict =
        validateWith g (some sp) ((normalize config ⟨false⟩).config) strict) ∧
    (∀ (config : LlmConnectionConfig) (strict : Bool) (g : Provider),
      detectProvider config.host = some g →
      isGatewayProvider g = true →
      detectGatewaySubProvider config.model = none →
      validateCore config strict =
        validateWith g none ((normalize config ⟨false⟩).config) strict) ∧
    ((validateCore ⟨"", "openrouter.ai", "anthropic/claude-sonnet-4-5", none, none,
        [("temperature", "1.5")]⟩ false).map
      (fun i => (i.param, i.severity, strIncludes i.message "<= 1")) =
      [("temperature", .error, true)]) ∧
    validateCore ⟨"", "openrouter.ai", "qwen/qwen2.5-pro", none, none,
        [("temperature", "1.5")]⟩ false = [] := by
  refine ⟨?_, ?_, by decide, by decide⟩
  · intro config strict g sp h1 h2 h3
    unfold validateCore
    simp only [normalize, normalizeSubProvider, h1, h2, h3, if_true]
  · intro config strict g h1 h2 h3
    unfold validateCore
    simp only [normalize, normalizeSubProvider, h1, h2, h3, if_true]

/-- Witness for C1's general conjunct at a concrete gateway record. -/
theorem validate_gateway_subprovider_resolution_witness :
    detectProvider "openrouter.ai" = some .openrouter ∧
    isGatewayProvider .openrouter = true ∧
    detectGatewaySubProvider "anthropic/claude-sonnet-4-5" = some .anthropic ∧
    validateCore ⟨"", "openrouter.ai", "anthropic/claude-sonnet-4-5", none, none,
        [("temperature", "1.5")]⟩ false =
      validateWith .openrouter (some .anthropic)
        ((normalize ⟨"", "openrouter.ai", "anthropic/claude-sonnet-4-5", none, none,
          [("temperature", "1.5")]⟩ ⟨false⟩).config) false :=
  ⟨by decide, by decide, by decide,
   validate_gateway_subprovider_resolution.1
     ⟨"", "openrouter.ai", "anthropic/claude-sonnet-4-5", none, none,
       [("temperature", "1.5")]⟩ false .openrouter .anthropic
     (by decide) (by decide) (by decide)⟩

/-- Lemma: inserting an absent key appends. -/
lemma objInsert_not_mem (m : List (String × String)) (k v : String)
    (h : m.any (fun q => q.1 == k) = false) : objInsert m k v = m ++ [(k, v)] := by
  simp [objInsert, h]

/-- Lemma: an entry whose key is alias-free, not the cache pseudo-param,
mapped to itself (or absent) in the provider param map, and not subject to the
reasoning-model rename, passes through `normStep` as a plain insert with no
change logged. -/
lemma normStep_fixed (provider? : Option Provider) (model : String) (verbose : Bool)
    (acc : List (String × String)) (chs : List NormalizeChange) (e : String × String)
    (h1 : aliasLookup e.1 = none) (h2 : (e.1 == "cache") = false)
    (h3 : ∀ p, provider? = some p →
      ((providerParams p).lookup e.1 = none ∨ (providerParams p).lookup e.1 = some e.1) ∧
      (canHostOpenAIModels p && isReasoningModel model && (e.1 == "max_tokens")) = false) :
    normStep provider? model verbose (acc, chs) e = (objInsert acc e.1 e.2, chs) := by
  obtain ⟨k, v⟩ := e
  simp only [normStep, h1] at *
  cases provider? with
  | none => simp [normFinish]
  | some p =>
    rcases h3 p rfl with ⟨hl | hl, h4⟩ <;>
      simp [h2, normFinish, hl, h4]

/-- Lemma: the `normalize` loop over entries that are all fixed points is the
identity on the record (given unique keys) and logs nothing. -/
lemma foldl_normStep_fixed (provider? : Option Provider) (model : String) (verbose : Bool) :
    ∀ (l acc : List (String × String)) (chs : List NormalizeChange),
    (∀ e ∈ l, aliasLookup e.1 = none ∧ (e.1 == "cache") = false ∧
      (∀ p, provider? = some p →
        ((providerParams p).lookup e.1 = none ∨ (providerParams p).lookup e.1 = some e.1) ∧
        (canHostOpenAIModels p && isReasoningModel model && (e.1 == "max_tokens")) = false)) →
    (∀ e ∈ l, acc.any (fun q => q.1 == e.1) = false) →
    (l.map Prod.fst).Nodup →
    l.foldl (normStep provider? model verbose) (acc, chs) = (acc ++ l, chs)
  | [], acc, chs, _, _, _ => by simp
  | e :: l, acc, chs, hfix, hacc, hnd => by
    rw [List.foldl_cons,
        normStep_fixed provider? model verbose acc chs e
          (hfix e (by simp)).1 (hfix e (by simp)).2.1 (hfix e (by simp)).2.2,
        objInsert_not_mem acc e.1 e.2 (hacc e (by simp))]
    have hnd0 : (e.1 :: l.map Prod.fst).Nodup := by simpa using hnd
    obtain ⟨hnotmem, hnd'⟩ := List.nodup_cons.mp hnd0
    have hne : ∀ e' ∈ l, ¬(e.1 = e'.1) := by
      intro e' he' heq
      exact hnotmem (heq ▸ List.mem_map_of_mem Prod.fst he')
    rw [foldl_normStep_fixed provider? model verbose l (acc ++ [(e.1, e.2)]) chs
          (fun e' he' => hfix e' (by simp [he']))
          (fun e' he' => by
            have h1 := hacc e' (by simp [he'])
            have h2 : (e.1 == e'.1) = false := by
              simpa [beq_eq_false_iff_ne] using hne e' he'
            simp [List.any_append, h1, h2])
          hnd']
    simp

/-- C7 counterexample: `maxOutputTokens` is google's provider-native name for
the max-tokens parameter, yet normalizing `{maxOutputTokens: "100"}` for the
google host in verbose mode logs changes (an alias expansion and a rename back)
even though the param set is returned identical — "logs no changes" fails as
stated. -/
theorem normalize_idempotence_counterexample :
    ((providerParams .google).map Prod.snd).contains "maxOutputTokens" = true ∧
    detectProvider "generativelanguage.googleapis.com" = some .google ∧
    (normalize ⟨"", "generativelanguage.googleapis.com", "gemini-2.5-pro", none, none,
        [("maxOutputTokens", "100")]⟩ ⟨true⟩).config.params =
      [("maxOutputTokens", "100")] ∧
    (normalize ⟨"", "generativelanguage.googleapis.com", "gemini-2.5-pro", none, none,
        [("maxOutputTokens", "100")]⟩ ⟨true⟩).changes ≠ [] :=
  ⟨by decide, by decide, by decide, by decide⟩

/-- C7 amended: for every record with unique param keys all of which are fixed
points of the rewriting pipeline — alias-free, not the `cache` pseudo-param,
mapped to themselves (or absent) by the detected provider's param map, and not
the reasoning-model `max_tokens` case — `normalize` returns the param set
identical to the input and, in verbose mode as in quiet mode, logs no
changes.  (The counterexample forces the restriction: provider-native spellings
that are also alias keys, such as google's camelCase names, round-trip to an
identical param set but do log changes.) -/
theorem normalize_idempotent_on_fixed_points
    (config : LlmConnectionConfig) (options : NormalizeOptions)
    (hnd : (config.params.map Prod.fst).Nodup)
    (hfix : ∀ e ∈ config.params,
      aliasLookup e.1 = none ∧ (e.1 == "cache") = false ∧
      (∀ p, detectProvider config.host = some p →
        ((providerParams p).lookup e.1 = none ∨ (providerParams p).lookup e.1 = some e.1) ∧
        (canHostOpenAIModels p && isReasoningModel config.model && (e.1 == "max_tokens")) = false)) :
    (normalize config options).config.params = config.params ∧
    (normalize config options).changes = [] := by
  have hfold := foldl_normStep_fixed (detectProvider config.host) config.model
    options.verbose config.params [] [] hfix (by simp) hnd
  constructor <;> simp [normalize, hfold]

/-- Witness for the amended C7 at a concrete canonical openai record. -/
theorem normalize_idempotent_on_fixed_points_witness :
    (normalize ⟨"", "api.openai.com", "gpt-4o", none, none,
        [("temperature", "0.7"), ("max_tokens", "100")]⟩ ⟨true⟩).config.params =
      [("temperature", "0.7"), ("max_tokens", "100")] ∧
    (normalize ⟨"", "api.openai.com", "gpt-4o", none, none,
        [("temperature", "0.7"), ("max_tokens", "100")]⟩ ⟨true⟩).changes = [] :=
  normalize_idempotent_on_fixed_points
    ⟨"", "api.openai.com", "gpt-4o", none, none,
      [("temperature", "0.7"), ("max_tokens", "100")]⟩ ⟨true⟩
    (by decide) (by decide)

/-- Lemma: an insert grows the record by at most one entry. -/
lemma objInsert_length_le (m : List (String × String)) (k v : String) :
    (objInsert m k v).length ≤ m.length + 1 := by
  unfold objInsert
  split
  · simp
  · simp

/-- Lemma: inserting a present key keeps the length. -/
lemma objInsert_length_of_mem (m : List (String × String)) (k v : String)
    (h : containsKey m k = true) : (objInsert m k v).length = m.length := by
  unfold containsKey at h
  simp [objInsert, h]

/-- Lemma: after an insert the inserted key is present. -/
lemma containsKey_objInsert_self (m : List (String × String)) (k v : String) :
    containsKey (objInsert m k v) k = true := by
  unfold objInsert containsKey
  split
  · rename_i h
    obtain ⟨p, hp, hpk⟩ := List.any_eq_true.mp h
    exact List.any_eq_true.mpr
      ⟨(k, v), by
        refine List.mem_map.mpr ⟨p, hp, ?_⟩
        simp [hpk], by simp⟩
  · simp [List.any_append]

/-- Lemma: an insert never removes keys. -/
lemma containsKey_objInsert_mono (m : List (String × String)) (k v k' : String)
    (h : containsKey m k' = true) : containsKey (objInsert m k v) k' = true := by
  unfold objInsert containsKey at *
  split
  · obtain ⟨p, hp, hpk⟩ := List.any_eq_true.mp h
    apply List.any_eq_true.mpr
    refine ⟨if p.1 == k then (k, v) else p, List.mem_map_of_mem _ hp, ?_⟩
    by_cases hc : (p.1 == k) = true
    · have e1 : p.1 = k := by simpa [beq_iff_eq] using hc
      have e2 : p.1 = k' := by simpa [beq_iff_eq] using hpk
      simp [hc, ← e1, e2]
    · simp [hc, hpk]
  · simp [List.any_append, h]

/-- Lemma: the weight measure dominates the length. -/
lemma length_le_weight (provider? : Option Provider) (m : List (String × String)) :
    m.length ≤ weight provider? m := by
  unfold weight
  exact Nat.le_add_right _ _

/-- Lemma: the empty record has weight one. -/
lemma weight_nil (provider? : Option Provider) : weight provider? [] = 1 := by
  cases provider? <;> simp [weight, containsKey]

/-- Lemma: one insert raises the weight by at most one. -/
lemma weight_objInsert_le (provider? : Option Provider) (m : List (String × String))
    (k v : String) : weight provider? (objInsert m k v) ≤ weight provider? m + 1 := by
  have hle := objInsert_length_le m k v
  cases provider? with
  | none => simp only [weight]; omega
  | some p =>
    cases hb : (containsKey m (cacheProviderKey p) && containsKey m "cache_ttl") with
    | true =>
      have h1 := containsKey_objInsert_mono m k v (cacheProviderKey p)
        (Bool.and_elim_left hb)
      have h2 := containsKey_objInsert_mono m k v "cache_ttl" (Bool.and_elim_right hb)
      simp only [weight, hb, h1, h2, Bool.and_self]
      omega
    | false =>
      simp only [weight, hb]
      split <;> simp <;> omega

/-- Lemma: the cache-duration double insert raises the weight by at most
one, because it installs exactly the two keys the weight measure watches. -/
lemma weight_cache_duration_le (p : Provider) (m : List (String × String))
    (cv d : String) :
    weight (some p) (objInsert (objInsert m (cacheProviderKey p) cv) "cache_ttl" d) ≤
      weight (some p) m + 1 := by
  have c1 : containsKey (objInsert (objInsert m (cacheProviderKey p) cv) "cache_ttl" d)
      (cacheProviderKey p) = true :=
    containsKey_objInsert_mono _ _ _ _ (containsKey_objInsert_self m (cacheProviderKey p) cv)
  have c2 := containsKey_objInsert_self (objInsert m (cacheProviderKey p) cv) "cache_ttl" d
  cases hb : (containsKey m (cacheProviderKey p) && containsKey m "cache_ttl") with
  | true =>
    have l1 := objInsert_length_of_mem m (cacheProviderKey p) cv (Bool.and_elim_left hb)
    have l2 := objInsert_length_of_mem (objInsert m (cacheProviderKey p) cv) "cache_ttl" d
      (containsKey_objInsert_mono _ _ _ _ (Bool.and_elim_right hb))
    simp only [weight, hb, c1, c2, Bool.and_self]
    omega
  | false =>
    have l1 := objInsert_length_le m (cacheProviderKey p) cv
    have l2 := objInsert_length_le (objInsert m (cacheProviderKey p) cv) "cache_ttl" d
    simp only [weight, hb, c1, c2, Bool.and_self]
    simp
    omega

/-- Lemma: steps 3-4 always emit exactly one insert of the value. -/
lemma normFinish_fst (provider? : Option Provider) (model : String) (verbose : Bool)
    (params : List (String × String)) (chs : List NormalizeChange) (key value : String) :
    ∃ k1, (normFinish provider? model verbose params chs key value).1 =
      objInsert params k1 value :=
  ⟨_, rfl⟩

/-- Lemma: one `normalize` loop iteration either inserts one entry, drops the
entry, or (exactly in the cache-duration case, as observed by
`cacheDurationRewriteHappens`) inserts the cache-control/cache-TTL pair. -/
lemma normStep_shape (provider? : Option Provider) (model : String) (verbose : Bool)
    (acc : List (String × String)) (chs : List NormalizeChange) (e : String × String) :
    (∃ k1 v1, (normStep provider? model verbose (acc, chs) e).1 = objInsert acc k1 v1) ∨
    (normStep provider? model verbose (acc, chs) e).1 = acc ∨
    (∃ p cv, provider? = some p ∧
      cacheDurationRewriteHappens provider? model e = true ∧
      (normStep provider? model verbose (acc, chs) e).1 =
        objInsert (objInsert acc (cacheProviderKey p) cv) "cache_ttl" e.2) := by
  obtain ⟨k, v⟩ := e
  unfold normStep
  cases ha : aliasLookup k with
  | none =>
    simp only [ha]
    cases provider? with
    | none =>
      obtain ⟨k1, hk1⟩ := normFinish_fst none model verbose acc chs k v
      exact Or.inl ⟨k1, v, hk1⟩
    | some p =>
      by_cases hk : (k == "cache") = true
      · simp only [hk, if_true]
        cases hcv : normCacheValue p model with
        | none => exact Or.inr (Or.inl rfl)
        | some cv =>
          by_cases hbd : ((v == "true" || v == "1" || v == "yes") || isDurationString v) = true
          · simp only [hbd, if_true]
            by_cases htd : (isDurationString v && (cacheTtls p).isSome) = true
            · refine Or.inr (Or.inr ⟨p, cv, rfl, ?_, by simp [htd]⟩)
              simp [cacheDurationRewriteHappens, ha, hk, hcv,
                Bool.and_elim_left htd, Bool.and_elim_right htd]
            · rw [Bool.not_eq_true] at htd
              simp only [htd]
              exact Or.inl ⟨cacheProviderKey p, cv, by simp⟩
          · rw [Bool.not_eq_true] at hbd
            simp only [hbd]
            obtain ⟨k1, hk1⟩ := normFinish_fst (some p) model verbose acc chs k v
            exact Or.inl ⟨k1, v, hk1⟩
      · rw [Bool.not_eq_true] at hk
        simp only [hk]
        obtain ⟨k1, hk1⟩ := normFinish_fst (some p) model verbose acc chs k v
        exact Or.inl ⟨k1, v, hk1⟩
  | some c =>
    simp only [ha]
    cases provider? with
    | none =>
      obtain ⟨k1, hk1⟩ := normFinish_fst none model verbose acc
        (if verbose then chs ++ [⟨k, c, v, "alias: \"" ++ k ++ "\" → \"" ++ c ++ "\""⟩] else chs) c v
      exact Or.inl ⟨k1, v, hk1⟩
    | some p =>
      by_cases hk : (c == "cache") = true
      · simp only [hk, if_true]
        cases hcv : normCacheValue p model with
        | none => exact Or.inr (Or.inl rfl)
        | some cv =>
          by_cases hbd : ((v == "true" || v == "1" || v == "yes") || isDurationString v) = true
          · simp only [hbd, if_true]
            by_cases htd : (isDurationString v && (cacheTtls p).isSome) = true
            · refine Or.inr (Or.inr ⟨p, cv, rfl, ?_, by simp [htd]⟩)
              simp [cacheDurationRewriteHappens, ha, hk, hcv,
                Bool.and_elim_left htd, Bool.and_elim_right htd]
            · rw [Bool.not_eq_true] at htd
              simp only [htd]
              exact Or.inl ⟨cacheProviderKey p, cv, by simp⟩
          · rw [Bool.not_eq_true] at hbd
            simp only [hbd]
            obtain ⟨k1, hk1⟩ := normFinish_fst (some p) model verbose acc
              (if verbose then chs ++ [⟨k, c, v, "alias: \"" ++ k ++ "\" → \"" ++ c ++ "\""⟩] else chs) c v
            exact Or.inl ⟨k1, v, hk1⟩
      · rw [Bool.not_eq_true] at hk
        simp only [hk]
        obtain ⟨k1, hk1⟩ := normFinish_fst (some p) model verbose acc
          (if verbose then chs ++ [⟨k, c, v, "alias: \"" ++ k ++ "\" → \"" ++ c ++ "\""⟩] else chs) c v
        exact Or.inl ⟨k1, v, hk1⟩

/-- Lemma: one loop iteration raises the weight by at most one. -/
lemma normStep_weight (provider? : Option Provider) (model : String) (verbose : Bool)
    (acc : List (String × String)) (chs : List NormalizeChange) (e : String × String) :
    weight provider? ((normStep provider? model verbose (acc, chs) e).1) ≤
      weight provider? acc + 1 := by
  rcases normStep_shape provider? model verbose acc chs e with
    ⟨k1, v1, h⟩ | h | ⟨p, cv, hp, _, h⟩
  · rw [h]; exact weight_objInsert_le provider? acc k1 v1
  · rw [h]; omega
  · rw [h, hp]; exact weight_cache_duration_le p acc cv e.2

/-- Lemma: outside the cache-duration case one iteration adds at most one
entry. -/
lemma normStep_length_noDur (provider? : Option Provider) (model : String) (verbose : Bool)
    (acc : List (String × String)) (chs : List NormalizeChange) (e : String × String)
    (hflag : cacheDurationRewriteHappens provider? model e = false) :
    ((normStep provider? model verbose (acc, chs) e).1).length ≤ acc.length + 1 := by
  rcases normStep_shape provider? model verbose acc chs e with
    ⟨k1, v1, h⟩ | h | ⟨p, cv, hp, hf, h⟩
  · rw [h]; exact objInsert_length_le acc k1 v1
  · rw [h]; omega
  · rw [hf] at hflag; cases hflag

/-- Lemma: the whole loop raises the weight by at most the number of input
entries. -/
lemma foldl_normStep_weight (provider? : Option Provider) (model : String) (verbose : Bool) :
    ∀ (l : List (String × String)) (st : List (String × String) × List NormalizeChange),
    weight provider? ((l.foldl (normStep provider? model verbose) st).1) ≤
      weight provider? st.1 + l.length
  | [], st => by simp
  | e :: l, st => by
    rw [List.foldl_cons]
    have h1 : weight provider? ((normStep provider? model verbose st e).1) ≤
        weight provider? st.1 + 1 := by
      obtain ⟨a, c⟩ := st
      exact normStep_weight provider? model verbose a c e
    have h2 := foldl_normStep_weight provider? model verbose l
      (normStep provider? model verbose st e)
    simp only [List.length_cons]
    omega

/-- Lemma: with no cache-duration entry the output has at most one entry per
input entry. -/
lemma foldl_normStep_length_noDur (provider? : Option Provider) (model : String)
    (verbose : Bool) :
    ∀ (l : List (String × String)) (st : List (String × String) × List NormalizeChange),
    (∀ e ∈ l, cacheDurationRewriteHappens provider? model e = false) →
    ((l.foldl (normStep provider? model verbose) st).1).length ≤ st.1.length + l.length
  | [], st, _ => by simp
  | e :: l, st, h => by
    rw [List.foldl_cons]
    have h1 : ((normStep provider? model verbose st e).1).length ≤ st.1.length + 1 := by
      obtain ⟨a, c⟩ := st
      exact normStep_length_noDur provider? model verbose a c e (h e (by simp))
    have h2 := foldl_normStep_length_noDur provider? model verbose l
      (normStep provider? model verbose st e) (fun e' he' => h e' (by simp [he']))
    simp only [List.length_cons]
    omega

/-- C8: for every input record, the output param record of `normalize` never
exceeds the input size plus one, and when no cache-duration rewrite occurs the
output has at most the input size — the single extra entry can only come from
the cache-duration case. -/
theorem normalize_output_size_bound (config : LlmConnectionConfig)
    (options : NormalizeOptions) :
    (normalize config options).config.params.length ≤ config.params.length + 1 ∧
    (config.params.any
        (cacheDurationRewriteHappens (detectProvider config.host) config.model) = false →
      (normalize config options).config.params.length ≤ config.params.length) := by
  constructor
  · have h := foldl_normStep_weight (detectProvider config.host) config.model
      options.verbose config.params ([], [])
    have h2 := length_le_weight (detectProvider config.host)
      ((config.params.foldl (normStep (detectProvider config.host) config.model
        options.verbose) ([], [])).1)
    have h3 := weight_nil (detectProvider config.host)
    simp only [normalize]
    simp only [show (([], []) : List (String × String) × List NormalizeChange).1 =
      ([] : List (String × String)) from rfl] at h
    omega
  · intro hnone
    have hall : ∀ e ∈ config.params,
        cacheDurationRewriteHappens (detectProvider config.host) config.model e = false := by
      intro e he
      by_contra hc
      rw [Bool.not_eq_false] at hc
      have := List.any_eq_true.mpr ⟨e, he, hc⟩
      rw [hnone] at this
      cases this
    have h := foldl_normStep_length_noDur (detectProvider config.host) config.model
      options.verbose config.params ([], []) hall
    simp only [normalize]
    simp only [show (([], []) : List (String × String) × List NormalizeChange).1 =
      ([] : List (String × String)) from rfl] at h
    simpa using h

/-- Witness for C8 at a concrete record with no cache-duration rewrite. -/
theorem normalize_output_size_bound_witness :
    (normalize ⟨"", "api.openai.com", "gpt-4o", none, none,
        [("temp", "0.7"), ("max", "1500")]⟩ ⟨false⟩).config.params.length ≤
      [("temp", "0.7"), ("max", "1500")].length + 1 ∧
    ([("temp", "0.7"), ("max", "1500")].any
        (cacheDurationRewriteHappens (detectProvider "api.openai.com") "gpt-4o") = false ∧
      (normalize ⟨"", "api.openai.com", "gpt-4o", none, none,
          [("temp", "0.7"), ("max", "1500")]⟩ ⟨false⟩).config.params.length ≤
        [("temp", "0.7"), ("max", "1500")].length) :=
  ⟨(normalize_output_size_bound
      ⟨"", "api.openai.com", "gpt-4o", none, none, [("temp", "0.7"), ("max", "1500")]⟩
      ⟨false⟩).1,
   by decide,
   (normalize_output_size_bound
      ⟨"", "api.openai.com", "gpt-4o", none, none, [("temp", "0.7"), ("max", "1500")]⟩
      ⟨false⟩).2 (by decide)⟩

/-- Lemma: `bump` fixes error-severity issues. -/
lemma bump_of_error (i : ValidationIssue) (h : i.severity = .error) : bump i = i := by
  obtain ⟨a, b, c, s⟩ := i
  cases s
  · rfl
  · cases h

/-- Lemma: `bump` fixes lists of error-severity issues. -/
lemma map_bump_of_error (l : List ValidationIssue)
    (h : ∀ i ∈ l, i.severity = .error) : l.map bump = l := by
  induction l with
  | nil => rfl
  | cons a l ih =>
    rw [List.map_cons, bump_of_error a (h a (by simp)), ih (fun i hi => h i (by simp [hi]))]

/-- Lemma: every type/range/enum issue is an error. -/
lemma specCheckIssues_severity (k v : String) (spec : ParamSpec) :
    ∀ i ∈ specCheckIssues k v spec, i.severity = .error := by
  intro i hi
  unfold specCheckIssues at hi
  split at hi
  · split at hi
    · rw [List.mem_singleton] at hi; subst hi; rfl
    · rcases List.mem_append.mp hi with h | h <;>
        · split at h
          · split at h
            · rw [List.mem_singleton] at h; subst h; rfl
            · cases h
          · cases h
  · split at hi
    · cases hi
    · rw [List.mem_singleton] at hi; subst hi; rfl
  · split at hi
    · split at hi
      · cases hi
      · rw [List.mem_singleton] at hi; subst hi; rfl
    · cases hi

/-- Lemma: every Bedrock family issue is an error. -/
lemma bedrockIssue_severity (model k v : String) (i : ValidationIssue)
    (h : bedrockIssue model k v = some i) : i.severity = .error := by
  unfold bedrockIssue at h
  split at h <;>
    first
    | (cases h; rfl)
    | cases h
    | (split at h <;>
        first
        | (cases h; rfl)
        | cases h
        | (split at h <;>
            first
            | (cases h; rfl)
            | cases h))

/-- Lemma: every mutual-exclusion issue is an error. -/
lemma exclusionIssuesFor_severity (p : Provider) (sub : Option Provider)
    (cfg : LlmConnectionConfig) (k v : String) :
    ∀ i ∈ exclusionIssuesFor p sub cfg k v, i.severity = .error := by
  intro i hi
  unfold exclusionIssuesFor at hi
  split at hi
  · split at hi
    · rw [List.mem_singleton] at hi; subst hi; rfl
    · cases hi
  · cases hi

/-- Lemma: `bump` fixes the type/range/enum issues. -/
lemma specCheckIssues_map_bump (k v : String) (spec : ParamSpec) :
    (specCheckIssues k v spec).map bump = specCheckIssues k v spec :=
  map_bump_of_error _ (specCheckIssues_severity k v spec)

/-- Lemma: per param, the strict run is the non-strict run with warnings
promoted — `strict` reaches only the severity of the unknown-param issue. -/
lemma paramIssues_strict (p : Provider) (sub : Option Provider)
    (cfg : LlmConnectionConfig) (k v : String) :
    paramIssues p sub cfg true k v = (paramIssues p sub cfg false k v).map bump := by
  unfold paramIssues
  by_cases c1 : (canHostOpenAIModels p && isReasoningModel cfg.model &&
      reasoningModelUnsupported.contains k) = true
  · simp only [c1, if_true, List.map_cons, List.map_nil]
    rfl
  · rw [Bool.not_eq_true] at c1
    simp only [c1, Bool.false_eq_true, if_false]
    cases hb : (if p == .bedrock then bedrockIssue cfg.model k v else none) with
    | some issue =>
      simp only [hb, List.map_cons, List.map_nil]
      have hsev : issue.severity = .error := by
        by_cases hbp : (p == .bedrock) = true
        · rw [if_pos hbp] at hb
          exact bedrockIssue_severity cfg.model k v issue hb
        · rw [Bool.not_eq_true] at hbp
          rw [if_neg (by simp [hbp])] at hb
          cases hb
      rw [bump_of_error issue hsev]
    | none =>
      simp only [hb]
      by_cases c3 : (!((knownParamsFor p sub).contains k) &&
          ((paramSpecs (sub.getD p)).lookup k).isNone) = true
      · simp only [c3, if_true, List.map_cons, List.map_nil]
        rfl
      · rw [Bool.not_eq_true] at c3
        simp only [c3, Bool.false_eq_true, if_false]
        cases hs : effectiveSpec p sub k with
        | none => simp only [hs, List.map_nil]
        | some spec =>
          simp only [hs, List.map_append, specCheckIssues_map_bump]
          rw [map_bump_of_error _ (exclusionIssuesFor_severity p sub cfg k v)]

/-- Lemma: the whole loop in strict mode is the non-strict loop mapped
through `bump`. -/
lemma validateWith_strict (p : Provider) (sub : Option Provider)
    (cfg : LlmConnectionConfig) :
    validateWith p sub cfg true = (validateWith p sub cfg false).map bump := by
  unfold validateWith
  induction cfg.params with
  | nil => rfl
  | cons e l ih =>
    simp only [List.flatMap_cons, List.map_append]
    rw [paramIssues_strict p sub cfg e.1 e.2, ih]

/-- Lemma: `validate` in strict mode returns the non-strict issue list with
every warning promoted to an error and no other change. -/
lemma validateCore_strict (cfg : LlmConnectionConfig) :
    validateCore cfg true = (validateCore cfg false).map bump := by
  unfold validateCore
  cases hp : (normalize cfg ⟨false⟩).provider with
  | none => simp [hp, bump]
  | some p => simp [hp, validateWith_strict]



/-- Lemma: a message starting with `Unknown ` keeps that head under appends. -/
lemma take8_append (s t : String) (h8 : 8 ≤ s.data.length)
    (hs : s.data.take 8 = "Unknown ".data) :
    (s ++ t).data.take 8 = "Unknown ".data ∧ 8 ≤ (s ++ t).data.length := by
  constructor
  · rw [String.data_append, List.take_append_of_le_length h8, hs]
  · rw [String.data_append, List.length_append]
    omega

/-- Lemma: the unknown-provider message starts with `Unknown `. -/
lemma take8_unknown_prov (host : String) :
    (unknownProviderMessage host).data.take 8 = "Unknown ".data := by
  unfold unknownProviderMessage
  have h0 : 8 ≤ ("Unknown provider for host \"" : String).data.length := by decide
  have t0 : ("Unknown provider for host \"" : String).data.take 8 = "Unknown ".data := by
    decide
  obtain ⟨t1, h1⟩ := take8_append _ host h0 t0
  exact (take8_append _ "\". Validation skipped." h1 t1).1

/-- Lemma: the unknown-param message starts with `Unknown `. -/
lemma take8_unknown_param (k : String) (eff : Provider) :
    (unknownParamMessage k eff).data.take 8 = "Unknown ".data := by
  unfold unknownParamMessage
  have h0 : 8 ≤ ("Unknown param \"" : String).data.length := by decide
  have t0 : ("Unknown param \"" : String).data.take 8 = "Unknown ".data := by decide
  obtain ⟨t1, h1⟩ := take8_append _ k h0 t0
  obtain ⟨t2, h2⟩ := take8_append _ "\" for " h1 t1
  obtain ⟨t3, h3⟩ := take8_append _ (providerName eff) h2 t2
  exact (take8_append _ "." h3 t3).1

/-- Lemma: the only warning the loop emits is the unknown-param issue, whose
message starts with `Unknown `. -/
lemma paramIssues_warning_unknown (p : Provider) (sub : Option Provider)
    (cfg : LlmConnectionConfig) (k v : String) :
    ∀ i ∈ paramIssues p sub cfg false k v, i.severity = .warning →
      i.message.data.take 8 = "Unknown ".data := by
  intro i hi hw
  unfold paramIssues at hi
  by_cases c1 : (canHostOpenAIModels p && isReasoningModel cfg.model &&
      reasoningModelUnsupported.contains k) = true
  · simp only [c1, if_true] at hi
    rw [List.mem_singleton] at hi
    subst hi
    cases hw
  · rw [Bool.not_eq_true] at c1
    simp only [c1, Bool.false_eq_true, if_false] at hi
    cases hb : (if p == .bedrock then bedrockIssue cfg.model k v else none) with
    | some issue =>
      simp only [hb] at hi
      rw [List.mem_singleton] at hi
      subst hi
      have hsev : i.severity = .error := by
        by_cases hbp : (p == .bedrock) = true
        · rw [if_pos hbp] at hb
          exact bedrockIssue_severity cfg.model k v i hb
        · rw [Bool.not_eq_true] at hbp
          rw [if_neg (by simp [hbp])] at hb
          cases hb
      rw [hsev] at hw
      cases hw
    | none =>
      simp only [hb] at hi
      by_cases c3 : (!((knownParamsFor p sub).contains k) &&
          ((paramSpecs (sub.getD p)).lookup k).isNone) = true
      · simp only [c3, if_true] at hi
        rw [List.mem_singleton] at hi
        subst hi
        exact take8_unknown_param k (sub.getD p)
      · rw [Bool.not_eq_true] at c3
        simp only [c3, Bool.false_eq_true, if_false] at hi
        cases hs : effectiveSpec p sub k with
        | none =>
          simp only [hs] at hi
          cases hi
        | some spec =>
          simp only [hs] at hi
          rcases List.mem_append.mp hi with h | h
          · rw [exclusionIssuesFor_severity p sub cfg k v i h] at hw
            cases hw
          · rw [specCheckIssues_severity k v spec i h] at hw
            cases hw

/-- Lemma: every non-strict warning is an unknown-provider or unknown-param
issue (its message starts with `Unknown `). -/
lemma validateCore_warning_unknown (cfg : LlmConnectionConfig) :
    ∀ i ∈ validateCore cfg false, i.severity = .warning →
      i.message.data.take 8 = "Unknown ".data := by
  intro i hi hw
  unfold validateCore at hi
  cases hp : (normalize cfg ⟨false⟩).provider with
  | none =>
    simp only [hp] at hi
    rw [List.mem_singleton] at hi
    subst hi
    exact take8_unknown_prov _
  | some p =>
    simp only [hp, validateWith] at hi
    obtain ⟨e, _, hi'⟩ := List.mem_flatMap.mp hi
    exact paramIssues_warning_unknown p ((normalize cfg ⟨false⟩).subProvider)
      ((normalize cfg ⟨false⟩).config) e.1 e.2 i hi' hw

/-- C6: for every connection record, the strict issue list equals the
non-strict list pointwise in param, value and message — no issue disappears
and none appears — and severities change only as warning-to-error upgrades;
every upgraded (warning) issue is one of the two "unknown" categories, whose
messages start with `Unknown `. -/
theorem validate_strict_mode_monotonic (config : LlmConnectionConfig) :
    (validateCore config true).length = (validateCore config false).length ∧
    (∀ (i : Nat) (h1 : i < (validateCore config true).length)
        (h2 : i < (validateCore config false).length),
      ((validateCore config true).get ⟨i, h1⟩).param =
        ((validateCore config false).get ⟨i, h2⟩).param ∧
      ((validateCore config true).get ⟨i, h1⟩).value =
        ((validateCore config false).get ⟨i, h2⟩).value ∧
      ((validateCore config true).get ⟨i, h1⟩).message =
        ((validateCore config false).get ⟨i, h2⟩).message ∧
      (((validateCore config true).get ⟨i, h1⟩).severity =
          ((validateCore config false).get ⟨i, h2⟩).severity ∨
        (((validateCore config false).get ⟨i, h2⟩).severity = .warning ∧
          ((validateCore config true).get ⟨i, h1⟩).severity = .error))) ∧
    (∀ i ∈ validateCore config false, i.severity = .warning →
      i.message.data.take 8 = "Unknown ".data) := by
  refine ⟨?_, ?_, validateCore_warning_unknown config⟩
  · rw [validateCore_strict, List.length_map]
  · intro i h1 h2
    have hget : (validateCore config true).get ⟨i, h1⟩ =
        bump ((validateCore config false).get ⟨i, h2⟩) := by
      have := validateCore_strict config
      rw [List.get_of_eq this ⟨i, h1⟩]
      simp [List.getElem_map]
    rw [hget]
    obtain ⟨a, b, c, s⟩ := (validateCore config false).get ⟨i, h2⟩
    cases s
    · exact ⟨rfl, rfl, rfl, Or.inl rfl⟩
    · exact ⟨rfl, rfl, rfl, Or.inr ⟨rfl, rfl⟩⟩

/-- Witness for C6 at a concrete record with an unknown parameter. -/
theorem validate_strict_mode_monotonic_witness :
    (validateCore ⟨"", "api.openai.com", "gpt-4o", none, none,
        [("made_up_param", "hello")]⟩ true).length =
      (validateCore ⟨"", "api.openai.com", "gpt-4o", none, none,
        [("made_up_param", "hello")]⟩ false).length ∧
    ((validateCore ⟨"", "api.openai.com", "gpt-4o", none, none,
        [("made_up_param", "hello")]⟩ true).get ⟨0, by decide⟩).message =
      ((validateCore ⟨"", "api.openai.com", "gpt-4o", none, none,
        [("made_up_param", "hello")]⟩ false).get ⟨0, by decide⟩).message :=
  ⟨(validate_strict_mode_monotonic
      ⟨"", "api.openai.com", "gpt-4o", none, none, [("made_up_param", "hello")]⟩).1,
   ((validate_strict_mode_monotonic
      ⟨"", "api.openai.com", "gpt-4o", none, none, [("made_up_param", "hello")]⟩).2.1
      0 (by decide) (by decide)).2.2.1⟩

/-- Appending on the right preserves the first character of a nonempty string. -/
lemma data_head_append (s t : String) (c : Char) (h : s.data.head? = some c) :
    (s ++ t).data.head? = some c := by
  rw [String.data_append]
  cases hs : s.data with
  | nil => rw [hs] at h; cases h
  | cons a l =>
    rw [hs] at h
    injection h with h
    subst h
    rfl

/-- Strings whose first characters differ are unequal under `==`. -/
lemma beq_false_of_head_ne (s t : String) (h : s.data.head? ≠ t.data.head?) :
    (s == t) = false := by
  rw [beq_eq_false_iff_ne]
  intro he
  subst he
  exact h rfl

/-- Mutual-exclusion messages start with the letter `C` (of "Cannot"). -/
lemma exclusionMessage_head (o : String) :
    (exclusionMessage o).data.head? = some 'C' := by
  unfold exclusionMessage
  exact data_head_append _ _ _ (data_head_append _ _ _ rfl)

/-- An issue whose message does not start with `C` is not recognised by the
mutual-exclusion filter. -/
lemma isExcl_false_of_head (a b : String) (sev : Severity) (msg : String) (c : Char)
    (h : msg.data.head? = some c) (hc : c ≠ 'C') :
    isMutualExclusionIssue ⟨a, b, msg, sev⟩ = false := by
  unfold isMutualExclusionIssue
  have h1 : (msg == exclusionMessage "top_p") = false :=
    beq_false_of_head_ne _ _ (by rw [h, exclusionMessage_head]; intro he; cases he; exact hc rfl)
  have h2 : (msg == exclusionMessage "topP") = false :=
    beq_false_of_head_ne _ _ (by rw [h, exclusionMessage_head]; intro he; cases he; exact hc rfl)
  simp [h1, h2]

/-- The reasoning-model message starts with a double quote. -/
lemma notSupportedMessage_head (k m : String) :
    (notSupportedMessage k m).data.head? = some '"' := by
  unfold notSupportedMessage
  exact data_head_append _ _ _ (data_head_append _ _ _ (data_head_append _ _ _
    (data_head_append _ _ _ rfl)))

/-- The Bedrock `topK` message starts with a double quote. -/
lemma topKMessage_head (f : BedrockModelFamily) :
    (topKMessage f).data.head? = some '"' := by
  unfold topKMessage
  exact data_head_append _ _ _ (data_head_append _ _ _ rfl)

/-- The Bedrock `cache_control` message starts with `P` (of "Prompt"). -/
lemma cacheControlMessage_head (f? : Option BedrockModelFamily) :
    (cacheControlMessage f?).data.head? = some 'P' := by
  unfold cacheControlMessage
  exact data_head_append _ _ _ (data_head_append _ _ _ rfl)

/-- The unknown-parameter message starts with `U` (of "Unknown"). -/
lemma unknownParamMessage_head (k : String) (eff : Provider) :
    (unknownParamMessage k eff).data.head? = some 'U' := by
  unfold unknownParamMessage
  exact data_head_append _ _ _ (data_head_append _ _ _ (data_head_append _ _ _
    (data_head_append _ _ _ rfl)))

/-- The not-a-number message starts with a double quote. -/
lemma nanMessage_head (k v : String) : (nanMessage k v).data.head? = some '"' := by
  unfold nanMessage
  exact data_head_append _ _ _ (data_head_append _ _ _ (data_head_append _ _ _
    (data_head_append _ _ _ rfl)))

/-- The below-minimum message starts with a double quote. -/
lemma minMessage_head (k : String) (m : Int) (q : JsNum) :
    (minMessage k m q).data.head? = some '"' := by
  unfold minMessage
  repeat1 apply data_head_append
  rfl

/-- The above-maximum message starts with a double quote. -/
lemma maxMessage_head (k : String) (m : Int) (q : JsNum) :
    (maxMessage k m q).data.head? = some '"' := by
  unfold maxMessage
  repeat1 apply data_head_append
  rfl

/-- The boolean-expected message starts with a double quote. -/
lemma booleanMessage_head (k v : String) :
    (booleanMessage k v).data.head? = some '"' := by
  unfold booleanMessage
  repeat1 apply data_head_append
  rfl

/-- The enum-mismatch message starts with a double quote. -/
lemma enumMessage_head (k : String) (vs : List String) (v : String) :
    (enumMessage k vs v).data.head? = some '"' := by
  unfold enumMessage
  repeat1 apply data_head_append
  rfl

/-- The number, boolean and enum spec checks never produce a mutual-exclusion
issue (their messages start with a double quote, not `C`). -/
lemma specCheckIssues_not_excl (k v : String) (spec : ParamSpec) :
    ∀ i ∈ specCheckIssues k v spec, isMutualExclusionIssue i = false := by
  intro i hi
  unfold specCheckIssues at hi
  split at hi
  · split at hi
    · rw [List.mem_singleton] at hi
      subst hi
      exact isExcl_false_of_head _ _ _ _ _ (nanMessage_head k v) (by decide)
    · rcases List.mem_append.mp hi with h | h <;>
        · split at h
          · split at h
            · rw [List.mem_singleton] at h
              subst h
              first
              | exact isExcl_false_of_head _ _ _ _ _ (minMessage_head k _ _) (by decide)
              | exact isExcl_false_of_head _ _ _ _ _ (maxMessage_head k _ _) (by decide)
            · cases h
          · cases h
  · split at hi
    · cases hi
    · rw [List.mem_singleton] at hi
      subst hi
      exact isExcl_false_of_head _ _ _ _ _ (booleanMessage_head k v) (by decide)
  · split at hi
    · split at hi
      · cases hi
      · rw [List.mem_singleton] at hi
        subst hi
        exact isExcl_false_of_head _ _ _ _ _ (enumMessage_head k _ v) (by decide)
    · cases hi

/-- Filtering a list none of whose members satisfy the predicate yields `[]`. -/
lemma filter_eq_nil_of_not (l : List ValidationIssue)
    (h : ∀ i ∈ l, isMutualExclusionIssue i = false) :
    l.filter isMutualExclusionIssue = [] := by
  induction l with
  | nil => rfl
  | cons a l ih =>
    rw [List.filter_cons]
    simp only [h a (by simp)]
    exact ih (fun i hi => h i (by simp [hi]))

/-- Spec checks contribute nothing under the mutual-exclusion filter. -/
lemma specCheckIssues_filter_excl (k v : String) (spec : ParamSpec) :
    (specCheckIssues k v spec).filter isMutualExclusionIssue = [] :=
  filter_eq_nil_of_not _ (specCheckIssues_not_excl k v spec)

/-- The Bedrock `topK`/`cache_control` pre-checks never produce a
mutual-exclusion issue. -/
lemma bedrockIssue_not_excl (model k v : String) (i : ValidationIssue)
    (h : bedrockIssue model k v = some i) : isMutualExclusionIssue i = false := by
  unfold bedrockIssue at h
  split at h
  · split at h
    · cases h
      exact isExcl_false_of_head _ _ _ _ _ (topKMessage_head _) (by decide)
    · split at h
      · cases h
        exact isExcl_false_of_head _ _ _ _ _ (cacheControlMessage_head _) (by decide)
      · cases h
  · split at h
    · cases h
      exact isExcl_false_of_head _ _ _ _ _ (cacheControlMessage_head _) (by decide)
    · cases h

/-- The exclusion check only ever fires on the `temperature` key. -/
lemma exclusionIssuesFor_ne_temperature (p : Provider) (sub : Option Provider)
    (cfg : LlmConnectionConfig) (k v : String) (hk : (k == "temperature") = false) :
    exclusionIssuesFor p sub cfg k v = [] := by
  unfold exclusionIssuesFor
  split
  · rw [if_neg]
    simp [hk]
  · rfl

/-- A parameter other than `temperature` contributes no mutual-exclusion issue. -/
lemma paramIssues_filter_excl_ne (p : Provider) (sub : Option Provider)
    (cfg : LlmConnectionConfig) (strict : Bool) (k v : String)
    (hk : (k == "temperature") = false) :
    (paramIssues p sub cfg strict k v).filter isMutualExclusionIssue = [] := by
  apply filter_eq_nil_of_not
  intro i hi
  unfold paramIssues at hi
  by_cases c1 : (canHostOpenAIModels p && isReasoningModel cfg.model &&
      reasoningModelUnsupported.contains k) = true
  · simp only [c1, if_true] at hi
    rw [List.mem_singleton] at hi
    subst hi
    exact isExcl_false_of_head _ _ _ _ _ (notSupportedMessage_head k cfg.model) (by decide)
  · rw [Bool.not_eq_true] at c1
    simp only [c1, Bool.false_eq_true, if_false] at hi
    cases hb : (if p == .bedrock then bedrockIssue cfg.model k v else none) with
    | some issue =>
      simp only [hb] at hi
      rw [List.mem_singleton] at hi
      subst hi
      by_cases hbp : (p == .bedrock) = true
      · rw [if_pos hbp] at hb
        exact bedrockIssue_not_excl cfg.model k v i hb
      · rw [Bool.not_eq_true] at hbp
        rw [if_neg (by simp [hbp])] at hb
        cases hb
    | none =>
      simp only [hb] at hi
      by_cases c3 : (!((knownParamsFor p sub).contains k) &&
          ((paramSpecs (sub.getD p)).lookup k).isNone) = true
      · simp only [c3, if_true] at hi
        rw [List.mem_singleton] at hi
        subst hi
        exact isExcl_false_of_head _ _ _ _ _ (unknownParamMessage_head k _) (by decide)
      · rw [Bool.not_eq_true] at c3
        simp only [c3, Bool.false_eq_true, if_false] at hi
        cases hs : effectiveSpec p sub k with
        | none => simp only [hs] at hi; cases hi
        | some spec =>
          simp only [hs, exclusionIssuesFor_ne_temperature p sub cfg k v hk,
            List.nil_append] at hi
          exact specCheckIssues_not_excl k v spec i hi

/-- `objInsert` preserves distinctness of the keys. -/
lemma objInsert_nodup (m : List (String × String)) (k v : String)
    (h : (m.map Prod.fst).Nodup) : ((objInsert m k v).map Prod.fst).Nodup := by
  unfold objInsert
  split
  · have : (m.map (fun p => if p.1 == k then (k, v) else p)).map Prod.fst =
        m.map Prod.fst := by
      rw [List.map_map]
      apply List.map_congr_left
      intro p _
      by_cases hp : (p.1 == k) = true
      · have : p.1 = k := by simpa [beq_iff_eq] using hp
        simp [hp, this]
      · have hne : ¬(p.1 = k) := by simpa [beq_iff_eq] using hp
        simp [hp, hne]
    rw [this]
    exact h
  · rename_i hna
    rw [List.map_append]
    rw [List.nodup_append]
    refine ⟨h, by simp, ?_⟩
    intro x hx
    simp only [List.map_cons, List.map_nil, List.mem_singleton]
    intro hxk
    subst hxk
    apply hna
    obtain ⟨e, he, hek⟩ := List.mem_map.mp hx
    exact List.any_eq_true.mpr ⟨e, he, by simp [hek]⟩

/-- One normalization step preserves distinctness of the accumulated keys. -/
lemma normStep_nodup (provider? : Option Provider) (model : String) (verbose : Bool)
    (acc : List (String × String)) (chs : List NormalizeChange) (e : String × String)
    (h : (acc.map Prod.fst).Nodup) :
    (((normStep provider? model verbose (acc, chs) e).1).map Prod.fst).Nodup := by
  rcases normStep_shape provider? model verbose acc chs e with
    ⟨k1, v1, hh⟩ | hh | ⟨p, cv, _, _, hh⟩
  · rw [hh]; exact objInsert_nodup acc k1 v1 h
  · rw [hh]; exact h
  · rw [hh]; exact objInsert_nodup _ _ _ (objInsert_nodup acc _ cv h)

/-- The normalization fold preserves distinctness of the accumulated keys. -/
lemma foldl_normStep_nodup (provider? : Option Provider) (model : String)
    (verbose : Bool) :
    ∀ (l : List (String × String)) (st : List (String × String) × List NormalizeChange),
    (st.1.map Prod.fst).Nodup →
    (((l.foldl (normStep provider? model verbose) st).1).map Prod.fst).Nodup
  | [], st, h => h
  | e :: l, st, h => by
    rw [List.foldl_cons]
    apply foldl_normStep_nodup provider? model verbose l
    obtain ⟨a, c⟩ := st
    exact normStep_nodup provider? model verbose a c e h

/-- The params of a normalized config always have pairwise distinct keys. -/
lemma normalize_params_nodup (config : LlmConnectionConfig)
    (options : NormalizeOptions) :
    (((normalize config options).config.params).map Prod.fst).Nodup := by
  unfold normalize
  exact foldl_normStep_nodup _ _ _ config.params ([], []) (by simp)

/-- The issue emitted by the exclusion check is recognised by the
mutual-exclusion filter, for every provider. -/
lemma isExcl_true_otherKey (p : Provider) (v : String) :
    isMutualExclusionIssue
      ⟨"temperature", v, exclusionMessage (exclusionOtherKey p "temperature"), .error⟩ =
      true := by
  unfold isMutualExclusionIssue exclusionOtherKey
  by_cases hb : (p == Provider.bedrock) = true
  · simp [hb]
  · rw [Bool.not_eq_true] at hb
    simp [hb]

/-- For the `temperature` entry — effective provider anthropic (or a Bedrock
anthropic-family model), not the reasoning-model case, spec present and the
partner parameter present — the per-parameter checks contribute exactly the
one mutual-exclusion error. -/
lemma paramIssues_filter_excl_temp (p : Provider) (sub : Option Provider)
    (cfg : LlmConnectionConfig) (strict : Bool) (v : String)
    (hnr : (canHostOpenAIModels p && isReasoningModel cfg.model) = false)
    (hbi : p = .bedrock → bedrockIssue cfg.model "temperature" v = none)
    (hknown : (knownParamsFor p sub).contains "temperature" = true)
    (hspec : (effectiveSpec p sub "temperature").isSome = true)
    (heff : (sub.getD p == Provider.anthropic ||
        (p == Provider.bedrock &&
          detectBedrockModelFamily cfg.model == some BedrockModelFamily.anthropic)) = true)
    (hO : (cfg.params.lookup (exclusionOtherKey p "temperature")).isSome = true) :
    (paramIssues p sub cfg strict "temperature" v).filter isMutualExclusionIssue =
      [⟨"temperature", v, exclusionMessage (exclusionOtherKey p "temperature"), .error⟩] := by
  unfold paramIssues
  have c1 : (canHostOpenAIModels p && isReasoningModel cfg.model &&
      reasoningModelUnsupported.contains "temperature") = false := by
    rw [hnr, Bool.false_and]
  have hbr : (if p == .bedrock then bedrockIssue cfg.model "temperature" v else none) =
      none := by
    by_cases hbp : (p == Provider.bedrock) = true
    · rw [if_pos hbp]
      exact hbi (by simpa [beq_iff_eq] using hbp)
    · rw [Bool.not_eq_true] at hbp
      rw [if_neg (by simp [hbp])]
  have c3 : (!((knownParamsFor p sub).contains "temperature") &&
      ((paramSpecs (sub.getD p)).lookup "temperature").isNone) = false := by
    rw [hknown]
    rfl
  simp only [c1, Bool.false_eq_true, if_false, hbr, c3]
  cases hsp : effectiveSpec p sub "temperature" with
  | none => rw [hsp] at hspec; cases hspec
  | some spec =>
    simp only [hsp]
    rw [List.filter_append, specCheckIssues_filter_excl, List.append_nil]
    have hex : exclusionIssuesFor p sub cfg "temperature" v =
        [⟨"temperature", v, exclusionMessage (exclusionOtherKey p "temperature"), .error⟩] := by
      unfold exclusionIssuesFor
      rw [if_pos, if_pos]
      · rw [show (("temperature" : String) == "temperature") = true from rfl, hO]
        rfl
      · rw [heff]
        rfl
    rw [hex, List.filter_cons]
    simp only [isExcl_true_otherKey p v, if_true]
    rfl

/-- The Bedrock pre-checks ignore the `temperature` key. -/
lemma bedrockIssue_temperature_none (model v : String) :
    bedrockIssue model "temperature" v = none := by
  unfold bedrockIssue
  have h1 : (("temperature" : String) == "topK") = false := by decide
  have h2 : (("temperature" : String) == "cache_control") = false := by decide
  split <;> simp [h1, h2]

/-- A `flatMap` whose every entry filters to `[]` filters to `[]`. -/
lemma flatMap_filter_nil (f : String × String → List ValidationIssue) :
    ∀ (l : List (String × String)),
    (∀ e ∈ l, (f e).filter isMutualExclusionIssue = []) →
    (l.flatMap f).filter isMutualExclusionIssue = []
  | [], _ => rfl
  | e :: l, h => by
    rw [List.flatMap_cons, List.filter_append, h e (by simp),
      flatMap_filter_nil f l (fun e' he' => h e' (by simp [he']))]
    rfl

/-- If only the entry carrying `key` contributes under the filter, and it
contributes exactly `[X]`, the whole `flatMap` filters to `[X]`. -/
lemma flatMap_filter_single (f : String × String → List ValidationIssue)
    (X : ValidationIssue) (key vT : String) :
    ∀ (l : List (String × String)),
    (l.map Prod.fst).Nodup →
    l.lookup key = some vT →
    (∀ e ∈ l, (e.1 == key) = false → (f e).filter isMutualExclusionIssue = []) →
    (f (key, vT)).filter isMutualExclusionIssue = [X] →
    (l.flatMap f).filter isMutualExclusionIssue = [X]
  | [], _, hlk, _, _ => by cases hlk
  | e :: l, hnd, hlk, hother, hkey => by
    obtain ⟨k0, v0⟩ := e
    rw [List.flatMap_cons, List.filter_append]
    have hnd0 : (k0 :: l.map Prod.fst).Nodup := by simpa using hnd
    obtain ⟨hnotmem, hnd'⟩ := List.nodup_cons.mp hnd0
    by_cases hk : (key == k0) = true
    · have he1 : k0 = key := (beq_iff_eq.mp hk).symm
      have hv : v0 = vT := by
        have : List.lookup key ((k0, v0) :: l) = some v0 := by
          simp [List.lookup, hk]
        rw [this] at hlk
        injection hlk
      subst he1
      subst hv
      rw [hkey, flatMap_filter_nil f l ?htail]
      · simp
      case htail =>
        intro e' he'
        apply hother e' (by simp [he'])
        have : ¬(e'.1 = k0) := by
          intro hcontra
          exact hnotmem (hcontra ▸ List.mem_map_of_mem Prod.fst he')
        simpa [beq_eq_false_iff_ne] using this
    · have hk' : (k0 == key) = false := by
        rw [Bool.not_eq_true] at hk
        rw [beq_eq_false_iff_ne] at hk ⊢
        exact fun hcontra => hk hcontra.symm
      have hlk' : l.lookup key = some vT := by
        rw [Bool.not_eq_true] at hk
        simpa [List.lookup, hk] using hlk
      rw [hother (k0, v0) (by simp) hk',
        flatMap_filter_single f X key vT l hnd' hlk'
          (fun e' he' h' => hother e' (by simp [he']) h') hkey]
      rfl

/-- When a provider is detected, `validateCore` is the per-parameter loop
`validateWith` run on the normalized config and sub-provider. -/
lemma validateCore_eq_validateWith (config : LlmConnectionConfig) (p : Provider)
    (h : detectProvider config.host = some p) (strict : Bool) :
    validateCore config strict =
      validateWith p ((normalize config ⟨false⟩).subProvider)
        ((normalize config ⟨false⟩).config) strict := by
  unfold validateCore
  simp only [normalize, h]

/-- C3 counterexample: for `openrouter.ai` with model `anthropic/o1` and both
`temperature` and `top_p` present, the sub-provider resolves to anthropic and
both parameters survive normalization, yet validate reports NO
mutual-exclusion error: the model matches the OpenAI reasoning-model check
(openrouter can host OpenAI models and the leaf of `anthropic/o1` matches
`^o[134]`), which claims both parameters first and emits two reasoning-model
errors instead — so "exactly one error" fails as stated. -/
theorem anthropic_mutual_exclusion_counterexample :
    (normalize ⟨"", "openrouter.ai", "anthropic/o1", none, none,
        [("temperature", "0.7"), ("top_p", "0.9")]⟩ ⟨false⟩).subProvider =
      some .anthropic ∧
    ((normalize ⟨"", "openrouter.ai", "anthropic/o1", none, none,
        [("temperature", "0.7"), ("top_p", "0.9")]⟩ ⟨false⟩).config.params.lookup
      "temperature").isSome = true ∧
    ((normalize ⟨"", "openrouter.ai", "anthropic/o1", none, none,
        [("temperature", "0.7"), ("top_p", "0.9")]⟩ ⟨false⟩).config.params.lookup
      "top_p").isSome = true ∧
    (validateCore ⟨"", "openrouter.ai", "anthropic/o1", none, none,
        [("temperature", "0.7"), ("top_p", "0.9")]⟩ false).filter
      isMutualExclusionIssue = [] ∧
    (validateCore ⟨"", "openrouter.ai", "anthropic/o1", none, none,
        [("temperature", "0.7"), ("top_p", "0.9")]⟩ false).length = 2 :=
  ⟨by decide, by decide, by decide, by decide, by decide⟩

/-- C3 amended: when both `temperature` and its partner key (`topP` on Bedrock,
`top_p` otherwise) survive normalization and the effective provider is
anthropic — directly, via a gateway sub-provider, or via a Bedrock
anthropic-family model — validation reports exactly one mutual-exclusion
error, attached to the `temperature` parameter with severity error, PROVIDED
the model is not an OpenAI reasoning model reached via a provider that can
host OpenAI models (the reasoning-model check claims the temperature/top_p
parameters first; see the counterexample). -/
theorem anthropic_mutual_exclusion_single_error
    (config : LlmConnectionConfig) (strict : Bool) (p : Provider) (vT : String)
    (hp : detectProvider config.host = some p)
    (heff : (normalize config ⟨false⟩).subProvider.getD p = Provider.anthropic ∨
      (p = Provider.bedrock ∧
        detectBedrockModelFamily config.model = some BedrockModelFamily.anthropic))
    (hnr : ¬(canHostOpenAIModels p = true ∧ isReasoningModel config.model = true))
    (hT : (normalize config ⟨false⟩).config.params.lookup "temperature" = some vT)
    (hO : ((normalize config ⟨false⟩).config.params.lookup
        (exclusionOtherKey p "temperature")).isSome = true) :
    (validateCore config strict).filter isMutualExclusionIssue =
      [⟨"temperature", vT, exclusionMessage (exclusionOtherKey p "temperature"),
        .error⟩] := by
  have hnrB : (canHostOpenAIModels p && isReasoningModel config.model) = false := by
    cases hcan : canHostOpenAIModels p <;> cases hre : isReasoningModel config.model <;>
      simp_all
  have hbase : (normalize config ⟨false⟩).subProvider =
      normalizeSubProvider (some p) config.model := by
    rw [show (normalize config ⟨false⟩).subProvider =
      normalizeSubProvider (detectProvider config.host) config.model from rfl, hp]
  rw [validateCore_eq_validateWith config p hp strict]
  unfold validateWith
  apply flatMap_filter_single _ _ "temperature" vT _
    (normalize_params_nodup config ⟨false⟩) hT
  · intro e _ hne
    exact paramIssues_filter_excl_ne p _ _ strict e.1 e.2 hne
  · apply paramIssues_filter_excl_temp p ((normalize config ⟨false⟩).subProvider)
      ((normalize config ⟨false⟩).config) strict vT hnrB
    · intro hpb
      exact bedrockIssue_temperature_none _ vT
    · -- known-param membership, by cases on the sub-provider situation
      rcases heff with ha | ⟨hpb, hfam⟩
      · cases hsub : (normalize config ⟨false⟩).subProvider with
        | none =>
          rw [hsub] at ha
          subst ha
          decide
        | some x =>
          rw [hsub] at ha
          subst ha
          rw [hbase] at hsub
          simp only [normalizeSubProvider] at hsub
          by_cases hgw : isGatewayProvider p = true
          · cases p <;> first | (exact absurd hgw (by decide)) | decide
          · rw [Bool.not_eq_true] at hgw
            rw [hgw] at hsub
            simp at hsub
      · subst hpb
        have hsub : (normalize config ⟨false⟩).subProvider = none := by
          rw [hbase]
          rfl
        rw [hsub]
        decide
    · rcases heff with ha | ⟨hpb, hfam⟩
      · cases hsub : (normalize config ⟨false⟩).subProvider with
        | none =>
          rw [hsub] at ha
          subst ha
          decide
        | some x =>
          rw [hsub] at ha
          subst ha
          rw [hbase] at hsub
          simp only [normalizeSubProvider] at hsub
          by_cases hgw : isGatewayProvider p = true
          · cases p <;> first | (exact absurd hgw (by decide)) | decide
          · rw [Bool.not_eq_true] at hgw
            rw [hgw] at hsub
            simp at hsub
      · subst hpb
        have hsub : (normalize config ⟨false⟩).subProvider = none := by
          rw [hbase]
          rfl
        rw [hsub]
        decide
    · rcases heff with ha | ⟨hpb, hfam⟩
      · rw [ha]
        rfl
      · subst hpb
        rw [show (normalize config ⟨false⟩).config.model = config.model from rfl, hfam]
        have hsub : (normalize config ⟨false⟩).subProvider = none := by
          rw [hbase]
          rfl
        rw [hsub]
        decide
    · exact hO

/-- C3 witness: openrouter + `anthropic/claude-sonnet-4-5` with temperature 0.7
and top_p 0.9 yields exactly the one exclusion error. -/
theorem anthropic_mutual_exclusion_single_error_witness :
    detectProvider "openrouter.ai" = some .openrouter ∧
    (validateCore ⟨"", "openrouter.ai", "anthropic/claude-sonnet-4-5", none, none,
        [("temperature", "0.7"), ("top_p", "0.9")]⟩ false).filter
      isMutualExclusionIssue =
      [⟨"temperature", "0.7",
        exclusionMessage (exclusionOtherKey .openrouter "temperature"), .error⟩] :=
  ⟨by decide,
   anthropic_mutual_exclusion_single_error
     ⟨"", "openrouter.ai", "anthropic/claude-sonnet-4-5", none, none,
       [("temperature", "0.7"), ("top_p", "0.9")]⟩ false .openrouter "0.7"
     (by decide) (Or.inl (by decide)) (by decide) (by decide) (by decide)⟩

end LlmStrings
